import Mathlib

/-!
Verification development for the Spinlab Slow Control library (`SpinlabSC.py`).

The development shallowly embeds the library's data-access layer and object
model in Lean:

* Python strings are embedded as `List Char` (`Str`); the dotted-name split
  `name.split('.')` is embedded as `splitDots`.
* Python's two exception classes `DatabaseException` and `ModelException`
  (plus the built-in `ValueError` / `ZeroDivisionError` / `IndexError` /
  `AttributeError` that the code can raise) are embedded as `PyErr`.
* The dynamically typed object graph (`Owner`, `Project`, `System`,
  `Manufacturer`, `Device`, `Units`, `Sensor` instances plus `None` and other
  values that can be passed where an object is expected) is embedded as the
  inductive `PyObj`, with Python truthiness (`truthy`) and the
  `isinstance` tests used by the constructors.
* The MySQL store is embedded as `DB`: one list of typed rows per table, a
  fresh-id counter for `AUTO_INCREMENT`, and a server clock `now` used for the
  `DTG` timestamp columns.  A `SELECT ... WHERE col = v` becomes a
  `List.filter`; `ORDER BY recDTG ASC` becomes an insertion sort by the
  timestamp field; `rows[0]` becomes a `match` whose empty case is an
  `IndexError`.
* Fallible operations return `Except PyErr _`.  Create operations return the
  post-state of the store as well (`DB × Except PyErr PyObj`) because a row
  inserted before an exception is raised stays inserted.

Entity constructors (`__init__`) are embedded as `<Class>.mk'` functions
returning `Except PyErr PyObj`, mirroring the validation checks in source
order.  Database methods taking an optional `ID` keyword are embedded as two
functions (`GetX` for the name path, `GetXByID` for the id path), since the
Python method just branches on whether `ID` was supplied.
-/

/-- Python strings, embedded as lists of characters. -/
abbrev Str := List Char

/-- Helper turning a Lean string literal into an embedded Python string. -/
def strL (s : String) : Str := s.data

/-- The exceptions the library can raise: the two custom classes and the
built-in exceptions reachable in the embedded code paths. -/
inductive PyErr where
  | databaseErr (msg : Str)
  | modelErr (msg : Str)
  | valueErr
  | zeroDivisionErr
  | indexErr
  | attrErr
deriving DecidableEq, Repr

/-- Decidable equality on `Except`, so that concrete instances of the
theorems below can be checked by `decide`. -/
instance {ε α : Type} [DecidableEq ε] [DecidableEq α] : DecidableEq (Except ε α) :=
  fun a b =>
    match a, b with
    | .ok x, .ok y =>
      if h : x = y then .isTrue (by rw [h]) else .isFalse (by simp [h])
    | .error e, .error f =>
      if h : e = f then .isTrue (by rw [h]) else .isFalse (by simp [h])
    | .ok _, .error _ => .isFalse (by simp)
    | .error _, .ok _ => .isFalse (by simp)

/-- The Python object graph: the model-class instances together with `None`
and other primitive values that can be passed where an object is expected
(the constructors receive arbitrary Python values for their parent /
manufacturer / units arguments). -/
inductive PyObj where
  | pyNone
  | pyInt (n : Int)
  | pyStr (s : Str)
  | pyOwner (name desc : Str) (id dtg : Option Nat)
  | pyProject (name desc : Str) (owner : PyObj) (id dtg : Option Nat)
  | pySystem (name desc : Str) (project : PyObj) (id dtg : Option Nat)
  | pyManufacturer (name desc url : Str) (id dtg : Option Nat)
  | pyDevice (name desc : Str) (system : PyObj) (url : Str) (mfg : PyObj) (id dtg : Option Nat)
  | pyUnits (short long desc : Str) (id : Option Nat)
  | pySensor (name desc : Str) (device : PyObj) (units : PyObj) (id dtg : Option Nat)
deriving DecidableEq, Repr

namespace PyObj

/-- Python truthiness: `None`, `0` and `""` are falsy; class instances are
truthy (none of the model classes defines `__bool__` or `__len__`). -/
def truthy : PyObj → Bool
  | pyNone => false
  | pyInt n => n != 0
  | pyStr s => s != []
  | _ => true

/-- The `.ID` attribute of a model object (`none` when the object has no such
attribute, or when the stored id field is Python `None`). -/
def IDof : PyObj → Option Nat
  | pyOwner _ _ i _ => i
  | pyProject _ _ _ i _ => i
  | pySystem _ _ _ i _ => i
  | pyManufacturer _ _ _ i _ => i
  | pyDevice _ _ _ _ _ i _ => i
  | pyUnits _ _ _ i => i
  | pySensor _ _ _ _ i _ => i
  | _ => none

/-- Embedding of `isinstance(x, Owner)`: `Owner` has no subclasses. -/
def isOwner : PyObj → Bool
  | pyOwner _ _ _ _ => true
  | _ => false

/-- Embedding of `isinstance(x, Project)`. -/
def isProject : PyObj → Bool
  | pyProject _ _ _ _ _ => true
  | _ => false

/-- Embedding of `isinstance(x, System)`. -/
def isSystem : PyObj → Bool
  | pySystem _ _ _ _ _ => true
  | _ => false

/-- Embedding of `isinstance(x, Device)`. -/
def isDevice : PyObj → Bool
  | pyDevice _ _ _ _ _ _ _ => true
  | _ => false

/-- Embedding of `Group.Nomenclature`: the name, prefixed by the parent's nomenclature and
a dot when a parent is present.  `Owner` and `Manufacturer` pass `None` as
their parent, so their nomenclature is the bare name.  Non-`Group` values
have no such method; the embedding returns `[]` for them (unreachable on the
objects the library builds). -/
def Nomenclature : PyObj → Str
  | pyOwner n _ _ _ => n
  | pyManufacturer n _ _ _ _ => n
  | pyProject n _ ow _ _ => if truthy ow then Nomenclature ow ++ '.' :: n else n
  | pySystem n _ pr _ _ => if truthy pr then Nomenclature pr ++ '.' :: n else n
  | pyDevice n _ sys _ _ _ _ => if truthy sys then Nomenclature sys ++ '.' :: n else n
  | pySensor n _ dev _ _ _ => if truthy dev then Nomenclature dev ++ '.' :: n else n
  | _ => []

end PyObj

/-- Embedding of `Group.__init__` field validation, in source order: empty name or
description, then the 12-char name ceiling, then the 255-char description
ceiling. -/
def groupCheck (name desc : Str) : Except PyErr Unit :=
  if name = [] ∨ desc = [] then
    .error (.modelErr (strL r"All groups must have a valid name and desc"))
  else if name.length > 12 then
    .error (.modelErr (strL r"Name of group exceeds 12 char max"))
  else if desc.length > 255 then
    .error (.modelErr (strL r"Description of group exceeds 255 char max"))
  else .ok ()

/-- The URL validation shared by `Manufacturer.__init__` and
`Device.__init__`: required (truthy) and at most 255 characters. -/
def urlCheck (url : Str) (emptyMsg : Str) : Except PyErr Unit :=
  if url = [] then .error (.modelErr emptyMsg)
  else if url.length > 255 then .error (.modelErr (strL r"URL exceeds 255 char max"))
  else .ok ()

/-- Embedding of `Owner.__init__`: just the `Group` checks; the parent is `None`. -/
def Owner.mk' (name desc : Str) (id dtg : Option Nat) : Except PyErr PyObj := do
  groupCheck name desc
  return .pyOwner name desc id dtg

/-- Embedding of `Project.__init__`: requires a truthy owner that is an `Owner` instance,
then runs the `Group` checks. -/
def Project.mk' (name desc : Str) (owner : PyObj) (id dtg : Option Nat) :
    Except PyErr PyObj := do
  if ¬ owner.truthy then
    throw (.modelErr (strL r"Projects require a valid owner"))
  if ¬ owner.isOwner then
    throw (.modelErr (strL r"Projects must belong to an owner"))
  groupCheck name desc
  return .pyProject name desc owner id dtg

/-- Embedding of `System.__init__`: requires a truthy project that is a `Project`
instance, then runs the `Group` checks. -/
def System.mk' (name desc : Str) (project : PyObj) (id dtg : Option Nat) :
    Except PyErr PyObj := do
  if ¬ project.truthy then
    throw (.modelErr (strL r"Systems require a valid project"))
  if ¬ project.isProject then
    throw (.modelErr (strL r"Systems must belong to a project"))
  groupCheck name desc
  return .pySystem name desc project id dtg

/-- Embedding of `Manufacturer.__init__`: validates the URL, then runs the `Group` checks
(so the name is effectively bounded by the 12-char base rule); the parent is
`None`. -/
def Manufacturer.mk' (name desc url : Str) (id dtg : Option Nat) :
    Except PyErr PyObj := do
  urlCheck url (strL r"Manufacturer require a valid URL")
  groupCheck name desc
  return .pyManufacturer name desc url id dtg

/-- Embedding of `Device.__init__`: requires a truthy `System` instance, a valid URL and a
truthy manufacturer (note: no `isinstance` check on the manufacturer), then
runs the `Group` checks. -/
def Device.mk' (name desc : Str) (system : PyObj) (url : Str) (mfg : PyObj)
    (id dtg : Option Nat) : Except PyErr PyObj := do
  if ¬ system.truthy then
    throw (.modelErr (strL r"Devices require a valid system"))
  if ¬ system.isSystem then
    throw (.modelErr (strL r"Devices must belong to a system"))
  urlCheck url (strL r"Devices require a valid docs URL")
  if ¬ mfg.truthy then
    throw (.modelErr (strL r"Devices require a vailid manufacturer"))
  groupCheck name desc
  return .pyDevice name desc system url mfg id dtg

/-- Embedding of `Units.__init__`: all three text fields required, with their ceilings
(25 for the short form, 255 for the long form and the description). -/
def Units.mk' (short long desc : Str) (id : Option Nat) : Except PyErr PyObj := do
  if short = [] ∨ long = [] ∨ desc = [] then
    throw (.modelErr (strL r"Description and short/long forms of units must be provided"))
  if short.length > 25 then
    throw (.modelErr (strL r"Short name of units exceeds 25 char max"))
  if long.length > 255 then
    throw (.modelErr (strL r"Long name of units exceeds 255 char max"))
  if desc.length > 255 then
    throw (.modelErr (strL r"Description of units exceeds 255 char max"))
  return .pyUnits short long desc id

/-- Embedding of `Sensor.__init__`: requires a truthy `Device` instance and truthy units
(note: no `isinstance` check on the units), then runs the `Group` checks. -/
def Sensor.mk' (name desc : Str) (device : PyObj) (units : PyObj)
    (id dtg : Option Nat) : Except PyErr PyObj := do
  if ¬ device.truthy then
    throw (.modelErr (strL r"Sensors require a valid device"))
  if ¬ device.isDevice then
    throw (.modelErr (strL r"sensors must belong to a device"))
  if ¬ units.truthy then
    throw (.modelErr (strL r"Sensors require valid units"))
  groupCheck name desc
  return .pySensor name desc device units id dtg

/-- Embedding of `name.split('.')` for the dotted nomenclature strings (the separator is
the single character `'.'`, matching Python's `str.split` on a one-character
separator). -/
def splitDots : Str → List Str
  | [] => [[]]
  | c :: cs =>
    if c = '.' then [] :: splitDots cs
    else
      match splitDots cs with
      | t :: ts => (c :: t) :: ts
      | [] => [[c]]

theorem splitDots_ne_nil (s : Str) : splitDots s ≠ [] := by
  induction s with
  | nil => simp [splitDots]
  | cons c cs ih =>
    simp only [splitDots]
    split
    · simp
    · cases h : splitDots cs with
      | nil => simp
      | cons t ts => simp

theorem splitDots_no_dot {a : Str} (h : '.' ∉ a) : splitDots a = [a] := by
  induction a with
  | nil => rfl
  | cons c cs ih =>
    have hc : c ≠ '.' := fun hcc => h (hcc ▸ List.mem_cons_self c cs)
    have hcs : '.' ∉ cs := fun hm => h (List.mem_cons_of_mem c hm)
    simp only [splitDots, if_neg hc, ih hcs]

theorem splitDots_append {a : Str} (rest : Str) (h : '.' ∉ a) :
    splitDots (a ++ '.' :: rest) = a :: splitDots rest := by
  induction a with
  | nil => simp [splitDots]
  | cons c cs ih =>
    have hc : c ≠ '.' := fun hcc => h (hcc ▸ List.mem_cons_self c cs)
    have hcs : '.' ∉ cs := fun hm => h (List.mem_cons_of_mem c hm)
    simp only [List.cons_append, splitDots, if_neg hc, List.append_eq, ih hcs]

/-! ## The store

One list of rows per table, in insertion order.  `nextID` models the
`AUTO_INCREMENT` counter shared across the embedded inserts; `now` models the
server clock that fills the `DTG` timestamp columns. -/

/-- A row of the `Owners` table. -/
structure OwnerRow where
  name : Str
  desc : Str
  id : Nat
  dtg : Nat
deriving DecidableEq, Repr

/-- A row of the `Projects` table. -/
structure ProjRow where
  name : Str
  desc : Str
  id : Nat
  dtg : Nat
  ownerID : Nat
deriving DecidableEq, Repr

/-- A row of the `Systems` table. -/
structure SysRow where
  name : Str
  desc : Str
  id : Nat
  dtg : Nat
  projID : Nat
deriving DecidableEq, Repr

/-- A row of the `Manufacturers` table. -/
structure MfgRow where
  name : Str
  desc : Str
  url : Str
  id : Nat
  dtg : Nat
deriving DecidableEq, Repr

/-- A row of the `Devices` table. -/
structure DevRow where
  name : Str
  desc : Str
  sysID : Nat
  url : Str
  mfgID : Nat
  id : Nat
  dtg : Nat
deriving DecidableEq, Repr

/-- A row of the `Units` table. -/
structure UnitRow where
  short : Str
  long : Str
  desc : Str
  id : Nat
deriving DecidableEq, Repr

/-- A row of the `Sensors` table. -/
structure SenRow where
  name : Str
  desc : Str
  devID : Nat
  unitID : Nat
  id : Nat
  dtg : Nat
deriving DecidableEq, Repr

/-- A row of the `Records` table (measurement values embedded as rationals;
timestamps as naturals). -/
structure RecRow where
  rdata : ℚ
  rerror : ℚ
  dtg : Nat
  id : Nat
  senID : Nat
deriving DecidableEq, Repr

/-- The database state. -/
structure DB where
  owners : List OwnerRow
  projects : List ProjRow
  systems : List SysRow
  mfgs : List MfgRow
  devices : List DevRow
  unitTable : List UnitRow
  sensors : List SenRow
  records : List RecRow
  nextID : Nat
  now : Nat
deriving DecidableEq, Repr

namespace DB

/-- Insert a row into `Owners`, consuming one `AUTO_INCREMENT` id. -/
def insOwner (db : DB) (r : OwnerRow) : DB := { db with owners := db.owners ++ [r], nextID := db.nextID + 1 }

/-- Insert a row into `Projects`. -/
def insProject (db : DB) (r : ProjRow) : DB := { db with projects := db.projects ++ [r], nextID := db.nextID + 1 }

/-- Insert a row into `Systems`. -/
def insSystem (db : DB) (r : SysRow) : DB := { db with systems := db.systems ++ [r], nextID := db.nextID + 1 }

/-- Insert a row into `Manufacturers`. -/
def insMfg (db : DB) (r : MfgRow) : DB := { db with mfgs := db.mfgs ++ [r], nextID := db.nextID + 1 }

/-- Insert a row into `Devices`. -/
def insDevice (db : DB) (r : DevRow) : DB := { db with devices := db.devices ++ [r], nextID := db.nextID + 1 }

/-- Insert a row into `Units`. -/
def insUnits (db : DB) (r : UnitRow) : DB := { db with unitTable := db.unitTable ++ [r], nextID := db.nextID + 1 }

/-- Insert a row into `Sensors`. -/
def insSensor (db : DB) (r : SenRow) : DB := { db with sensors := db.sensors ++ [r], nextID := db.nextID + 1 }

/-- Embedding of `GetOwner(name)` (name path): select the owner row by name; `None` when
no row matches, else build an `Owner` from the first row. -/
def GetOwner (db : DB) (name : Str) : Except PyErr PyObj :=
  match db.owners.filter (fun r => r.name == name) with
  | [] => .ok .pyNone
  | row :: _ => Owner.mk' row.name row.desc (some row.id) (some row.dtg)

/-- Embedding of `GetOwner(ID=...)` (id path). -/
def GetOwnerByID (db : DB) (id : Nat) : Except PyErr PyObj :=
  match db.owners.filter (fun r => r.id == id) with
  | [] => .ok .pyNone
  | row :: _ => Owner.mk' row.name row.desc (some row.id) (some row.dtg)

/-- Embedding of `GetProject(ID=...)` (id path): builds the `Project` from the row, with
the owner re-fetched by its id. -/
def GetProjectByID (db : DB) (id : Nat) : Except PyErr PyObj :=
  match db.projects.filter (fun r => r.id == id) with
  | [] => .ok .pyNone
  | row :: _ => do
    let ow ← db.GetOwnerByID row.ownerID
    Project.mk' row.name row.desc ow (some row.id) (some row.dtg)

/-- Embedding of `GetProject(name)` (name path): split the dotted name, resolve the owner
(raising `DatabaseException` when absent), then select by project name and
owner id; `None` when no row matches. -/
def GetProject (db : DB) (name : Str) : Except PyErr PyObj :=
  match splitDots name with
  | [oName, pName] => do
    let owner ← db.GetOwner oName
    if ¬ owner.truthy then
      throw (.databaseErr (strL r"Invalid owner name"))
    match owner.IDof with
    | none => throw .attrErr
    | some oid =>
      match db.projects.filter (fun r => r.name == pName && r.ownerID == oid) with
      | [] => return .pyNone
      | row :: _ => do
        let ow ← db.GetOwnerByID row.ownerID
        Project.mk' row.name row.desc ow (some row.id) (some row.dtg)
  | _ => .error .valueErr

/-- Embedding of `GetSystem(ID=...)` (id path). -/
def GetSystemByID (db : DB) (id : Nat) : Except PyErr PyObj :=
  match db.systems.filter (fun r => r.id == id) with
  | [] => .ok .pyNone
  | row :: _ => do
    let pr ← db.GetProjectByID row.projID
    System.mk' row.name row.desc pr (some row.id) (some row.dtg)

/-- Embedding of `GetSystem(name)` (name path): resolve `owner.project` (raising when the
project — or, inside `GetProject`, the owner — is absent), then select by
system name and project id; `None` when no row matches. -/
def GetSystem (db : DB) (name : Str) : Except PyErr PyObj :=
  match splitDots name with
  | [oName, pName, sName] => do
    let project ← db.GetProject (oName ++ '.' :: pName)
    if ¬ project.truthy then
      throw (.databaseErr (strL r"Invalid project name"))
    match project.IDof with
    | none => throw .attrErr
    | some pid =>
      match db.systems.filter (fun r => r.name == sName && r.projID == pid) with
      | [] => return .pyNone
      | row :: _ => do
        let pr ← db.GetProjectByID row.projID
        System.mk' row.name row.desc pr (some row.id) (some row.dtg)
  | _ => .error .valueErr

/-- Embedding of `GetManufacturer(name)` (name path). -/
def GetManufacturer (db : DB) (name : Str) : Except PyErr PyObj :=
  match db.mfgs.filter (fun r => r.name == name) with
  | [] => .ok .pyNone
  | row :: _ => Manufacturer.mk' row.name row.desc row.url (some row.id) (some row.dtg)

/-- Embedding of `GetManufacturer(ID=...)` (id path). -/
def GetManufacturerByID (db : DB) (id : Nat) : Except PyErr PyObj :=
  match db.mfgs.filter (fun r => r.id == id) with
  | [] => .ok .pyNone
  | row :: _ => Manufacturer.mk' row.name row.desc row.url (some row.id) (some row.dtg)

/-- Embedding of `GetUnits(long)` (name path; the long form is the unique key). -/
def GetUnits (db : DB) (long : Str) : Except PyErr PyObj :=
  match db.unitTable.filter (fun r => r.long == long) with
  | [] => .ok .pyNone
  | row :: _ => Units.mk' row.short row.long row.desc (some row.id)

/-- Embedding of `GetUnits(ID=...)` (id path). -/
def GetUnitsByID (db : DB) (id : Nat) : Except PyErr PyObj :=
  match db.unitTable.filter (fun r => r.id == id) with
  | [] => .ok .pyNone
  | row :: _ => Units.mk' row.short row.long row.desc (some row.id)

/-- Embedding of `GetDevice(ID=...)` (id path): builds the `Device` from the row, with the
system and manufacturer re-fetched by id. -/
def GetDeviceByID (db : DB) (id : Nat) : Except PyErr PyObj :=
  match db.devices.filter (fun r => r.id == id) with
  | [] => .ok .pyNone
  | row :: _ => do
    let sys ← db.GetSystemByID row.sysID
    let mfg ← db.GetManufacturerByID row.mfgID
    Device.mk' row.name row.desc sys row.url mfg (some row.id) (some row.dtg)

/-- Embedding of `GetDevice(name)` (name path): resolve `owner.project.system` (raising
when it is absent), then select by device name and system id; `None` when no
row matches. -/
def GetDevice (db : DB) (name : Str) : Except PyErr PyObj :=
  match splitDots name with
  | [oName, pName, sName, dName] => do
    let system ← db.GetSystem (oName ++ '.' :: pName ++ '.' :: sName)
    if ¬ system.truthy then
      throw (.databaseErr (strL r"System does not exist"))
    match system.IDof with
    | none => throw .attrErr
    | some sid =>
      match db.devices.filter (fun r => r.name == dName && r.sysID == sid) with
      | [] => return .pyNone
      | row :: _ => do
        let sys ← db.GetSystemByID row.sysID
        let mfg ← db.GetManufacturerByID row.mfgID
        Device.mk' row.name row.desc sys row.url mfg (some row.id) (some row.dtg)
  | _ => .error .valueErr

/-- Embedding of `GetSensor(name)` (name path): resolve `owner.project.system.device`
(raising when it is absent), then select by sensor name and device id;
`None` when no row matches. -/
def GetSensor (db : DB) (name : Str) : Except PyErr PyObj :=
  match splitDots name with
  | [oName, pName, sName, dName, SName] => do
    let device ← db.GetDevice (oName ++ '.' :: pName ++ '.' :: sName ++ '.' :: dName)
    if ¬ device.truthy then
      throw (.databaseErr (strL r"Device not found"))
    match device.IDof with
    | none => throw .attrErr
    | some did =>
      match db.sensors.filter (fun r => r.name == SName && r.devID == did) with
      | [] => return .pyNone
      | row :: _ => do
        let dev ← db.GetDeviceByID row.devID
        let un ← db.GetUnitsByID row.unitID
        Sensor.mk' row.name row.desc dev un (some row.id) (some row.dtg)
  | _ => .error .valueErr

/-- Embedding of `CreateNewOwner(name, desc)`: duplicate check, insert, re-read the
assigned timestamp, then construct the `Owner` (note that the model
validation inside `Owner.__init__` runs only after the insert).  The
post-state of the store is returned alongside the result, because a raised
exception does not undo the insert. -/
def CreateNewOwner (db : DB) (name desc : Str) : DB × Except PyErr PyObj :=
  match db.GetOwner name with
  | .error e => (db, .error e)
  | .ok ow =>
    if ow.truthy then
      (db, .error (.databaseErr (strL r"This owner already exists in the databse")))
    else
      let id := db.nextID
      let db' := insOwner db ⟨name, desc, id, db.now⟩
      match db'.owners.filter (fun r => r.id == id) with
      | [] => (db', .error .indexErr)
      | row :: _ => (db', Owner.mk' name desc (some id) (some row.dtg))

/-- Embedding of `CreateNewProject(name, desc)`: split the dotted name, duplicate check
via `GetProject` (which raises when the owner is absent), resolve the owner,
insert, re-read the timestamp, construct the `Project`. -/
def CreateNewProject (db : DB) (name desc : Str) : DB × Except PyErr PyObj :=
  match splitDots name with
  | [oName, pName] =>
    match db.GetProject name with
    | .error e => (db, .error e)
    | .ok ex =>
      if ex.truthy then
        (db, .error (.databaseErr (strL r"Project already exists")))
      else
        match db.GetOwner oName with
        | .error e => (db, .error e)
        | .ok owner =>
          match owner.IDof with
          | none => (db, .error .attrErr)
          | some oid =>
            let id := db.nextID
            let db' := insProject db ⟨pName, desc, id, db.now, oid⟩
            match db'.projects.filter (fun r => r.id == id) with
            | [] => (db', .error .indexErr)
            | row :: _ => (db', Project.mk' pName desc owner (some id) (some row.dtg))
  | _ => (db, .error .valueErr)

/-- Embedding of `CreateNewSystem(name, desc)`. -/
def CreateNewSystem (db : DB) (name desc : Str) : DB × Except PyErr PyObj :=
  match splitDots name with
  | [oName, pName, sName] =>
    match db.GetSystem name with
    | .error e => (db, .error e)
    | .ok ex =>
      if ex.truthy then
        (db, .error (.databaseErr (strL r"System already exists")))
      else
        match db.GetProject (oName ++ '.' :: pName) with
        | .error e => (db, .error e)
        | .ok project =>
          match project.IDof with
          | none => (db, .error .attrErr)
          | some pid =>
            let id := db.nextID
            let db' := insSystem db ⟨sName, desc, id, db.now, pid⟩
            match db'.systems.filter (fun r => r.id == id) with
            | [] => (db', .error .indexErr)
            | row :: _ => (db', System.mk' sName desc project (some id) (some row.dtg))
  | _ => (db, .error .valueErr)

/-- Embedding of `CreateNewManufacturer(name, desc, URL)`. -/
def CreateNewManufacturer (db : DB) (name desc url : Str) : DB × Except PyErr PyObj :=
  match db.GetManufacturer name with
  | .error e => (db, .error e)
  | .ok ex =>
    if ex.truthy then
      (db, .error (.databaseErr (strL r"Manufacturer already exists")))
    else
      let id := db.nextID
      let db' := insMfg db ⟨name, desc, url, id, db.now⟩
      match db'.mfgs.filter (fun r => r.id == id) with
      | [] => (db', .error .indexErr)
      | row :: _ => (db', Manufacturer.mk' name desc url (some id) (some row.dtg))

/-- Embedding of `CreateNewDevice(name, desc, URL, mfg)`: manufacturer presence check,
duplicate check (which raises when an ancestor is absent), system
resolution, insert, timestamp re-read, `Device` construction. -/
def CreateNewDevice (db : DB) (name desc url : Str) (mfg : PyObj) :
    DB × Except PyErr PyObj :=
  match splitDots name with
  | [oName, pName, sName, dName] =>
    if ¬ mfg.truthy then
      (db, .error (.databaseErr (strL r"Manufacturer required")))
    else
      match db.GetDevice name with
      | .error e => (db, .error e)
      | .ok ex =>
        if ex.truthy then
          (db, .error (.databaseErr (strL r"Device already exists")))
        else
          match db.GetSystem (oName ++ '.' :: pName ++ '.' :: sName) with
          | .error e => (db, .error e)
          | .ok system =>
            match system.IDof, mfg.IDof with
            | some sid, some mid =>
              let id := db.nextID
              let db' := insDevice db ⟨dName, desc, sid, url, mid, id, db.now⟩
              match db'.devices.filter (fun r => r.id == id) with
              | [] => (db', .error .indexErr)
              | row :: _ =>
                (db', Device.mk' dName desc system url mfg (some id) (some row.dtg))
            | _, _ => (db, .error .attrErr)
  | _ => (db, .error .valueErr)

/-- Embedding of `CreateNewUnits(short, long, desc)`: duplicate check on the long form,
insert, `Units` construction (no timestamp column on this table). -/
def CreateNewUnits (db : DB) (short long desc : Str) : DB × Except PyErr PyObj :=
  match db.GetUnits long with
  | .error e => (db, .error e)
  | .ok ex =>
    if ex.truthy then
      (db, .error (.databaseErr (strL r"Units already exist")))
    else
      let id := db.nextID
      let db' := insUnits db ⟨short, long, desc, id⟩
      (db', Units.mk' short long desc (some id))

/-- Embedding of `CreateNewSensor(name, desc, units)`: units presence check, duplicate
check (which raises when an ancestor is absent), device resolution, insert,
timestamp re-read, `Sensor` construction. -/
def CreateNewSensor (db : DB) (name desc : Str) (units : PyObj) :
    DB × Except PyErr PyObj :=
  match splitDots name with
  | [oName, pName, sName, dName, SName] =>
    if ¬ units.truthy then
      (db, .error (.databaseErr (strL r"Units required")))
    else
      match db.GetSensor name with
      | .error e => (db, .error e)
      | .ok ex =>
        if ex.truthy then
          (db, .error (.databaseErr (strL r"Sensor already exists")))
        else
          match db.GetDevice (oName ++ '.' :: pName ++ '.' :: sName ++ '.' :: dName) with
          | .error e => (db, .error e)
          | .ok device =>
            match device.IDof, units.IDof with
            | some did, some uid =>
              let id := db.nextID
              let db' := insSensor db ⟨SName, desc, did, uid, id, db.now⟩
              match db'.sensors.filter (fun r => r.id == id) with
              | [] => (db', .error .indexErr)
              | row :: _ =>
                (db', Sensor.mk' SName desc device units (some id) (some row.dtg))
            | _, _ => (db, .error .attrErr)
  | _ => (db, .error .valueErr)

end DB

/-! ## Records and record sets -/

/-- A `Record` object: a measurement value, its uncertainty, the sensor that
took it, and the store-assigned id and timestamp. -/
structure Record where
  rdata : ℚ
  rerror : ℚ
  sensor : PyObj
  id : Option Nat
  dtg : Option Nat
deriving DecidableEq, Repr

/-- Embedding of `Record.__init__`: requires a truthy sensor. -/
def Record.mk' (rdata rerror : ℚ) (sensor : PyObj) (id dtg : Option Nat) :
    Except PyErr Record :=
  if ¬ sensor.truthy then
    .error (.modelErr (strL r"Records must belong to a valid sensor"))
  else .ok ⟨rdata, rerror, sensor, id, dtg⟩

/-- A `RecordSet` object: parallel lists of timestamps, values and errors,
the sensor of the first record, and the count `N`.  (The Python attribute
`self.error` is embedded as the field `errs`.) -/
structure RecordSet where
  times : List (Option Nat)
  rdata : List ℚ
  errs : List ℚ
  sensor : PyObj
  N : Nat
deriving DecidableEq, Repr

/-- Embedding of `RecordSet.__init__`: builds the three parallel lists, then reads
`records[0].sensor` — an `IndexError` when the record list is empty — and
sets `N = len(self.times)`. -/
def RecordSet.init (records : List Record) : Except PyErr RecordSet :=
  let times := records.map (·.dtg)
  let rdata := records.map (·.rdata)
  let errs := records.map (·.rerror)
  match records with
  | [] => .error .indexErr
  | r0 :: _ => .ok ⟨times, rdata, errs, r0.sensor, times.length⟩

/-- Embedding of `RecordSet.Mean`: `sum(self.data)/self.N` — a `ZeroDivisionError` when
`N = 0` (unreachable for constructed record sets). -/
def RecordSet.Mean (rs : RecordSet) : Except PyErr ℚ :=
  if rs.N = 0 then .error .zeroDivisionErr
  else .ok (rs.rdata.sum / rs.N)

/-- Embedding of `RecordSet.Variance`: the population variance
`sum([(x-xbar)**2 for x in self.data])/self.N`. -/
def RecordSet.Variance (rs : RecordSet) : Except PyErr ℚ := do
  let xbar ← rs.Mean
  if rs.N = 0 then throw .zeroDivisionErr
  else return (rs.rdata.map (fun x => (x - xbar) ^ 2)).sum / rs.N

/-- The radicand of `RecordSet.StandardDeviation`:
`self.Variance()*self.N/(self.N-1)`, whose division raises
`ZeroDivisionError` when `N - 1 = 0`; the method then takes its square
root (`** 0.5`). -/
def RecordSet.StandardDeviationRad (rs : RecordSet) : Except PyErr ℚ := do
  let v ← rs.Variance
  if rs.N - 1 = 0 then throw .zeroDivisionErr
  else return v * rs.N / (rs.N - 1 : Nat)

/-- Embedding of `RecordSet.StandardDeviation`: the square root of the radicand (the
Python `** 0.5`), when no exception was raised before it. -/
noncomputable def RecordSet.StandardDeviation (rs : RecordSet) : Except PyErr ℝ :=
  (rs.StandardDeviationRad).map (fun q => Real.sqrt (q : ℝ))

/-- The comparison used by `ORDER BY recDTG ASC`. -/
def recLE (a b : RecRow) : Prop := a.dtg ≤ b.dtg

instance : DecidableRel recLE := fun a b => Nat.decLe a.dtg b.dtg

instance : IsTotal RecRow recLE := ⟨fun a b => Nat.le_total a.dtg b.dtg⟩

instance : IsTrans RecRow recLE := ⟨fun _ _ _ => Nat.le_trans⟩

/-- The row ordering produced by `ORDER BY recDTG ASC`. -/
def sortByDTG (l : List RecRow) : List RecRow := List.insertionSort recLE l

namespace DB

/-- The rows selected by `GetRecords`: same sensor id, timestamp in the
inclusive `BETWEEN` range. -/
def recQuery (db : DB) (sid : Nat) (startTime endTime : Nat) : List RecRow :=
  db.records.filter (fun r => r.senID == sid && decide (startTime ≤ r.dtg) && decide (r.dtg ≤ endTime))

end DB

/-- The `for row in rows` loop of `GetRecords`: build a `Record` object from
each selected row, in order. -/
def buildRecords (sensor : PyObj) : List RecRow → Except PyErr (List Record)
  | [] => .ok []
  | r :: rest => do
    let rec0 ← Record.mk' r.rdata r.rerror sensor (some r.id) (some r.dtg)
    let recs ← buildRecords sensor rest
    return rec0 :: recs

namespace DB

/-- Embedding of `GetRecords(sensor, startTime, endTime)`: raises when the sensor is
absent; selects this sensor's rows with `recDTG BETWEEN start AND end`,
ordered ascending by timestamp; `None` when no row matches, else a
`RecordSet` over the `Record` objects built from the rows. -/
def GetRecords (db : DB) (sensor : PyObj) (startTime endTime : Nat) :
    Except PyErr (Option RecordSet) :=
  if ¬ sensor.truthy then
    .error (.databaseErr (strL r"Sensor Required"))
  else
    match sensor.IDof with
    | none => .error .attrErr
    | some sid =>
      match sortByDTG (db.recQuery sid startTime endTime) with
      | [] => .ok none
      | rows => do
        let records ← buildRecords sensor rows
        let rs ← RecordSet.init records
        return (some rs)

end DB

/-! ## Proof-support layer

Canonical objects built from stored rows, well-formedness of rows, and
"resolution" predicates stating that an entity with a given dotted name is
present in the store (together with the ancestor chain the name-based
accessors walk). -/

/-- Simp lemmas for the `Except` monad operations used by the embedding. -/
theorem ebind_ok {ε α β : Type} (a : α) (f : α → Except ε β) :
    (Except.ok a : Except ε α) >>= f = f a := rfl

theorem ebind_err {ε α β : Type} (e : ε) (f : α → Except ε β) :
    (Except.error e : Except ε α) >>= f = .error e := rfl

theorem epure_eq_ok {ε α : Type} (a : α) : (pure a : Except ε α) = .ok a := rfl

/-- The `Owner` object built from a stored row. -/
def ownerObj (r : OwnerRow) : PyObj := .pyOwner r.name r.desc (some r.id) (some r.dtg)

/-- The `Project` object built from a stored row and its owner object. -/
def projObj (r : ProjRow) (ow : PyObj) : PyObj := .pyProject r.name r.desc ow (some r.id) (some r.dtg)

/-- The `System` object built from a stored row and its project object. -/
def sysObj (r : SysRow) (pr : PyObj) : PyObj := .pySystem r.name r.desc pr (some r.id) (some r.dtg)

/-- The `Manufacturer` object built from a stored row. -/
def mfgObj (r : MfgRow) : PyObj := .pyManufacturer r.name r.desc r.url (some r.id) (some r.dtg)

/-- The `Units` object built from a stored row. -/
def unitsObj (r : UnitRow) : PyObj := .pyUnits r.short r.long r.desc (some r.id)

/-- The `Device` object built from a stored row, its system object and its
manufacturer object. -/
def devObj (r : DevRow) (sys mfg : PyObj) : PyObj := .pyDevice r.name r.desc sys r.url mfg (some r.id) (some r.dtg)

/-- The `Sensor` object built from a stored row, its device object and its
units object. -/
def senObj (r : SenRow) (dev un : PyObj) : PyObj := .pySensor r.name r.desc dev un (some r.id) (some r.dtg)

theorem ownerMk_ok {n d : Str} (i t : Option Nat) (h : groupCheck n d = .ok ()) :
    Owner.mk' n d i t = .ok (.pyOwner n d i t) := by
  simp only [Owner.mk', bind, Except.bind, h]
  rfl

theorem projectMk_ok {n d : Str} {ow : PyObj} (i t : Option Nat)
    (how : ow.isOwner = true) (h : groupCheck n d = .ok ()) :
    Project.mk' n d ow i t = .ok (.pyProject n d ow i t) := by
  have htr : ow.truthy = true := by
    cases ow <;> simp_all [PyObj.isOwner, PyObj.truthy]
  simp only [Project.mk', htr, how, bind, Except.bind, h]
  rfl

theorem systemMk_ok {n d : Str} {pr : PyObj} (i t : Option Nat)
    (hpr : pr.isProject = true) (h : groupCheck n d = .ok ()) :
    System.mk' n d pr i t = .ok (.pySystem n d pr i t) := by
  have htr : pr.truthy = true := by
    cases pr <;> simp_all [PyObj.isProject, PyObj.truthy]
  simp only [System.mk', htr, hpr, bind, Except.bind, h]
  rfl

theorem mfgMk_ok {n d u : Str} (i t : Option Nat)
    (hu : urlCheck u (strL r"Manufacturer require a valid URL") = .ok ())
    (h : groupCheck n d = .ok ()) :
    Manufacturer.mk' n d u i t = .ok (.pyManufacturer n d u i t) := by
  simp only [Manufacturer.mk', bind, Except.bind, hu, h]
  rfl

theorem deviceMk_ok {n d u : Str} {sys mfg : PyObj} (i t : Option Nat)
    (hsys : sys.isSystem = true)
    (hu : urlCheck u (strL r"Devices require a valid docs URL") = .ok ())
    (hm : mfg.truthy = true) (h : groupCheck n d = .ok ()) :
    Device.mk' n d sys u mfg i t = .ok (.pyDevice n d sys u mfg i t) := by
  have htr : sys.truthy = true := by
    cases sys <;> simp_all [PyObj.isSystem, PyObj.truthy]
  simp only [Device.mk', htr, hsys, hm, bind, Except.bind, hu, h]
  rfl

theorem unitsMk_ok {s l d : Str} (i : Option Nat)
    (hs : s ≠ [] ∧ l ≠ [] ∧ d ≠ [])
    (hls : s.length ≤ 25) (hll : l.length ≤ 255) (hld : d.length ≤ 255) :
    Units.mk' s l d i = .ok (.pyUnits s l d i) := by
  simp only [Units.mk']
  rw [if_neg (by tauto), if_neg (by omega), if_neg (by omega), if_neg (by omega)]
  rfl

theorem sensorMk_ok {n d : Str} {dev un : PyObj} (i t : Option Nat)
    (hdev : dev.isDevice = true) (hun : un.truthy = true)
    (h : groupCheck n d = .ok ()) :
    Sensor.mk' n d dev un i t = .ok (.pySensor n d dev un i t) := by
  have htr : dev.truthy = true := by
    cases dev <;> simp_all [PyObj.isDevice, PyObj.truthy]
  simp only [Sensor.mk', htr, hdev, hun, bind, Except.bind, h]
  rfl

/-- A valid `Owners` row. -/
abbrev ownerRowOK (r : OwnerRow) : Prop := groupCheck r.name r.desc = .ok ()

/-- A valid `Projects` row. -/
abbrev projRowOK (r : ProjRow) : Prop := groupCheck r.name r.desc = .ok ()

/-- A valid `Systems` row. -/
abbrev sysRowOK (r : SysRow) : Prop := groupCheck r.name r.desc = .ok ()

/-- A valid `Manufacturers` row. -/
abbrev mfgRowOK (r : MfgRow) : Prop :=
  urlCheck r.url (strL r"Manufacturer require a valid URL") = .ok () ∧
  groupCheck r.name r.desc = .ok ()

/-- A valid `Devices` row. -/
abbrev devRowOK (r : DevRow) : Prop :=
  urlCheck r.url (strL r"Devices require a valid docs URL") = .ok () ∧
  groupCheck r.name r.desc = .ok ()

/-- A valid `Units` row. -/
abbrev unitRowOK (r : UnitRow) : Prop :=
  (r.short ≠ [] ∧ r.long ≠ [] ∧ r.desc ≠ []) ∧
  r.short.length ≤ 25 ∧ r.long.length ≤ 255 ∧ r.desc.length ≤ 255

/-- A valid `Sensors` row. -/
abbrev senRowOK (r : SenRow) : Prop := groupCheck r.name r.desc = .ok ()

/-- The owner named `o` is present in the store as row `row`: `o` is a
single dot-free component, the name and id selections both return exactly
this row, and the row's fields pass the model checks. -/
abbrev ownerAt (db : DB) (o : Str) (row : OwnerRow) : Prop :=
  row.name = o ∧ '.' ∉ o ∧
  db.owners.filter (fun r => r.name == o) = [row] ∧
  db.owners.filter (fun r => r.id == row.id) = [row] ∧
  ownerRowOK row

/-- The project `o.p` is present as row `prow` under owner row `orow`. -/
abbrev projectAt (db : DB) (o p : Str) (orow : OwnerRow) (prow : ProjRow) : Prop :=
  ownerAt db o orow ∧ prow.name = p ∧ '.' ∉ p ∧ prow.ownerID = orow.id ∧
  db.projects.filter (fun r => r.name == p && r.ownerID == orow.id) = [prow] ∧
  db.projects.filter (fun r => r.id == prow.id) = [prow] ∧
  projRowOK prow

/-- The system `o.p.s` is present as row `srow` under project row `prow`. -/
abbrev systemAt (db : DB) (o p s : Str) (orow : OwnerRow) (prow : ProjRow)
    (srow : SysRow) : Prop :=
  projectAt db o p orow prow ∧ srow.name = s ∧ '.' ∉ s ∧ srow.projID = prow.id ∧
  db.systems.filter (fun r => r.name == s && r.projID == prow.id) = [srow] ∧
  db.systems.filter (fun r => r.id == srow.id) = [srow] ∧
  sysRowOK srow

/-- The manufacturer row `mrow` is retrievable by id. -/
abbrev mfgAt (db : DB) (mrow : MfgRow) : Prop :=
  db.mfgs.filter (fun r => r.id == mrow.id) = [mrow] ∧ mfgRowOK mrow

/-- The units row `urow` is retrievable by id. -/
abbrev unitsAt (db : DB) (urow : UnitRow) : Prop :=
  db.unitTable.filter (fun r => r.id == urow.id) = [urow] ∧ unitRowOK urow

/-- The device `o.p.s.d` is present as row `drow` under system row `srow`,
with manufacturer row `mrow`. -/
abbrev deviceAt (db : DB) (o p s d : Str) (orow : OwnerRow) (prow : ProjRow)
    (srow : SysRow) (drow : DevRow) (mrow : MfgRow) : Prop :=
  systemAt db o p s orow prow srow ∧ drow.name = d ∧ '.' ∉ d ∧
  drow.sysID = srow.id ∧ drow.mfgID = mrow.id ∧
  db.devices.filter (fun r => r.name == d && r.sysID == srow.id) = [drow] ∧
  db.devices.filter (fun r => r.id == drow.id) = [drow] ∧
  devRowOK drow ∧ mfgAt db mrow

/-- The sensor `o.p.s.d.S` is present as row `senrow` under device row
`drow`, with units row `urow`. -/
abbrev sensorAt (db : DB) (o p s d S : Str) (orow : OwnerRow) (prow : ProjRow)
    (srow : SysRow) (drow : DevRow) (mrow : MfgRow) (senrow : SenRow)
    (urow : UnitRow) : Prop :=
  deviceAt db o p s d orow prow srow drow mrow ∧ senrow.name = S ∧ '.' ∉ S ∧
  senrow.devID = drow.id ∧ senrow.unitID = urow.id ∧
  db.sensors.filter (fun r => r.name == S && r.devID == drow.id) = [senrow] ∧
  db.sensors.filter (fun r => r.id == senrow.id) = [senrow] ∧
  senRowOK senrow ∧ unitsAt db urow

theorem getOwner_none {db : DB} {o : Str}
    (h : db.owners.filter (fun r => r.name == o) = []) :
    db.GetOwner o = .ok .pyNone := by
  simp only [DB.GetOwner, h]

theorem getOwner_at {db : DB} {o : Str} {row : OwnerRow} (h : ownerAt db o row) :
    db.GetOwner o = .ok (ownerObj row) := by
  obtain ⟨hn, hd, hf, hfid, hok⟩ := h
  simp only [DB.GetOwner, hf]
  exact ownerMk_ok _ _ hok

theorem getOwnerByID_at {db : DB} {o : Str} {row : OwnerRow} (h : ownerAt db o row) :
    db.GetOwnerByID row.id = .ok (ownerObj row) := by
  obtain ⟨hn, hd, hf, hfid, hok⟩ := h
  simp only [DB.GetOwnerByID, hfid]
  exact ownerMk_ok _ _ hok

theorem getProject_err_owner {db : DB} {o p : Str} (ho : '.' ∉ o) (hp : '.' ∉ p)
    (h : db.owners.filter (fun r => r.name == o) = []) :
    db.GetProject (o ++ '.' :: p) = .error (.databaseErr (strL r"Invalid owner name")) := by
  simp only [DB.GetProject, splitDots_append _ ho, splitDots_no_dot hp,
    getOwner_none h, ebind_ok, PyObj.truthy]
  rfl

theorem getProject_none {db : DB} {o p : Str} {orow : OwnerRow}
    (h : ownerAt db o orow) (hp : '.' ∉ p)
    (habs : db.projects.filter (fun r => r.name == p && r.ownerID == orow.id) = []) :
    db.GetProject (o ++ '.' :: p) = .ok .pyNone := by
  simp only [DB.GetProject, splitDots_append _ h.2.1, splitDots_no_dot hp,
    getOwner_at h, ebind_ok, ownerObj, PyObj.truthy, PyObj.IDof, habs]
  rfl

theorem getProject_at {db : DB} {o p : Str} {orow : OwnerRow} {prow : ProjRow}
    (h : projectAt db o p orow prow) :
    db.GetProject (o ++ '.' :: p) = .ok (projObj prow (ownerObj orow)) := by
  obtain ⟨how, hn, hp, hoid, hf, hfid, hok⟩ := h
  simp only [DB.GetProject, splitDots_append _ how.2.1, splitDots_no_dot hp,
    getOwner_at how, ebind_ok, ownerObj, PyObj.truthy, PyObj.IDof, hf]
  rw [hoid]
  rw [show db.GetOwnerByID orow.id = .ok (ownerObj orow) from getOwnerByID_at how]
  simp only [ebind_ok]
  rw [projectMk_ok _ _ (by simp [ownerObj, PyObj.isOwner]) hok]
  simp [projObj, ownerObj]

theorem getProjectByID_at {db : DB} {o p : Str} {orow : OwnerRow} {prow : ProjRow}
    (h : projectAt db o p orow prow) :
    db.GetProjectByID prow.id = .ok (projObj prow (ownerObj orow)) := by
  obtain ⟨how, hn, hp, hoid, hf, hfid, hok⟩ := h
  simp only [DB.GetProjectByID, hfid]
  rw [hoid]
  rw [show db.GetOwnerByID orow.id = .ok (ownerObj orow) from getOwnerByID_at how]
  simp only [ebind_ok]
  rw [projectMk_ok _ _ (by simp [ownerObj, PyObj.isOwner]) hok]
  simp [projObj, ownerObj]

theorem splitDots2 {o p : Str} (ho : '.' ∉ o) (hp : '.' ∉ p) :
    splitDots (o ++ '.' :: p) = [o, p] := by
  rw [splitDots_append _ ho, splitDots_no_dot hp]

theorem splitDots3 {o p s : Str} (ho : '.' ∉ o) (hp : '.' ∉ p) (hs : '.' ∉ s) :
    splitDots (o ++ '.' :: p ++ '.' :: s) = [o, p, s] := by
  have h1 : o ++ '.' :: p ++ '.' :: s = o ++ '.' :: (p ++ '.' :: s) := by
    simp [List.append_assoc]
  rw [h1, splitDots_append _ ho, splitDots_append _ hp, splitDots_no_dot hs]

theorem splitDots4 {o p s d : Str} (ho : '.' ∉ o) (hp : '.' ∉ p) (hs : '.' ∉ s)
    (hd : '.' ∉ d) :
    splitDots (o ++ '.' :: p ++ '.' :: s ++ '.' :: d) = [o, p, s, d] := by
  have h1 : o ++ '.' :: p ++ '.' :: s ++ '.' :: d =
      o ++ '.' :: (p ++ '.' :: (s ++ '.' :: d)) := by
    simp [List.append_assoc]
  rw [h1, splitDots_append _ ho, splitDots_append _ hp, splitDots_append _ hs,
    splitDots_no_dot hd]

theorem splitDots5 {o p s d S : Str} (ho : '.' ∉ o) (hp : '.' ∉ p) (hs : '.' ∉ s)
    (hd : '.' ∉ d) (hS : '.' ∉ S) :
    splitDots (o ++ '.' :: p ++ '.' :: s ++ '.' :: d ++ '.' :: S) = [o, p, s, d, S] := by
  have h1 : o ++ '.' :: p ++ '.' :: s ++ '.' :: d ++ '.' :: S =
      o ++ '.' :: (p ++ '.' :: (s ++ '.' :: (d ++ '.' :: S))) := by
    simp [List.append_assoc]
  rw [h1, splitDots_append _ ho, splitDots_append _ hp, splitDots_append _ hs,
    splitDots_append _ hd, splitDots_no_dot hS]

theorem getSystem_err_prop {db : DB} {o p s : Str} {e : PyErr}
    (ho : '.' ∉ o) (hp : '.' ∉ p) (hs : '.' ∉ s)
    (h : db.GetProject (o ++ '.' :: p) = .error e) :
    db.GetSystem (o ++ '.' :: p ++ '.' :: s) = .error e := by
  simp only [DB.GetSystem, splitDots3 ho hp hs, h, ebind_err]

theorem getSystem_err_project {db : DB} {o p s : Str}
    (ho : '.' ∉ o) (hp : '.' ∉ p) (hs : '.' ∉ s)
    (h : db.GetProject (o ++ '.' :: p) = .ok .pyNone) :
    db.GetSystem (o ++ '.' :: p ++ '.' :: s) =
      .error (.databaseErr (strL r"Invalid project name")) := by
  simp only [DB.GetSystem, splitDots3 ho hp hs, h, ebind_ok, PyObj.truthy]
  rfl

theorem getSystem_none {db : DB} {o p s : Str} {orow : OwnerRow} {prow : ProjRow}
    (h : projectAt db o p orow prow) (hs : '.' ∉ s)
    (habs : db.systems.filter (fun r => r.name == s && r.projID == prow.id) = []) :
    db.GetSystem (o ++ '.' :: p ++ '.' :: s) = .ok .pyNone := by
  simp only [DB.GetSystem, splitDots3 h.1.2.1 h.2.2.1 hs, getProject_at h, ebind_ok,
    projObj, PyObj.truthy, PyObj.IDof, habs]
  rfl

theorem getSystem_at {db : DB} {o p s : Str} {orow : OwnerRow} {prow : ProjRow}
    {srow : SysRow} (h : systemAt db o p s orow prow srow) :
    db.GetSystem (o ++ '.' :: p ++ '.' :: s) =
      .ok (sysObj srow (projObj prow (ownerObj orow))) := by
  obtain ⟨hpr, hn, hs, hpid, hf, hfid, hok⟩ := h
  simp only [DB.GetSystem, splitDots3 hpr.1.2.1 hpr.2.2.1 hs, getProject_at hpr,
    ebind_ok, projObj, PyObj.truthy, PyObj.IDof, hf]
  rw [hpid]
  rw [show db.GetProjectByID prow.id = .ok (projObj prow (ownerObj orow)) from
    getProjectByID_at hpr]
  simp only [ebind_ok]
  rw [systemMk_ok _ _ (by simp [projObj, PyObj.isProject]) hok]
  simp [sysObj, projObj]

theorem getSystemByID_at {db : DB} {o p s : Str} {orow : OwnerRow} {prow : ProjRow}
    {srow : SysRow} (h : systemAt db o p s orow prow srow) :
    db.GetSystemByID srow.id = .ok (sysObj srow (projObj prow (ownerObj orow))) := by
  obtain ⟨hpr, hn, hs, hpid, hf, hfid, hok⟩ := h
  simp only [DB.GetSystemByID, hfid]
  rw [hpid]
  rw [show db.GetProjectByID prow.id = .ok (projObj prow (ownerObj orow)) from
    getProjectByID_at hpr]
  simp only [ebind_ok]
  rw [systemMk_ok _ _ (by simp [projObj, PyObj.isProject]) hok]
  simp [sysObj, projObj]

theorem getMfgByID_at {db : DB} {mrow : MfgRow} (h : mfgAt db mrow) :
    db.GetManufacturerByID mrow.id = .ok (mfgObj mrow) := by
  obtain ⟨hf, hu, hg⟩ := h
  simp only [DB.GetManufacturerByID, hf]
  rw [mfgMk_ok _ _ hu hg]
  simp [mfgObj]

theorem getUnitsByID_at {db : DB} {urow : UnitRow} (h : unitsAt db urow) :
    db.GetUnitsByID urow.id = .ok (unitsObj urow) := by
  obtain ⟨hf, hok⟩ := h
  simp only [DB.GetUnitsByID, hf]
  rw [unitsMk_ok _ hok.1 hok.2.1 hok.2.2.1 hok.2.2.2]
  simp [unitsObj]

theorem getDevice_err_prop {db : DB} {o p s d : Str} {e : PyErr}
    (ho : '.' ∉ o) (hp : '.' ∉ p) (hs : '.' ∉ s) (hd : '.' ∉ d)
    (h : db.GetSystem (o ++ '.' :: p ++ '.' :: s) = .error e) :
    db.GetDevice (o ++ '.' :: p ++ '.' :: s ++ '.' :: d) = .error e := by
  simp only [DB.GetDevice, splitDots4 ho hp hs hd, h, ebind_err]

theorem getDevice_err_system {db : DB} {o p s d : Str}
    (ho : '.' ∉ o) (hp : '.' ∉ p) (hs : '.' ∉ s) (hd : '.' ∉ d)
    (h : db.GetSystem (o ++ '.' :: p ++ '.' :: s) = .ok .pyNone) :
    db.GetDevice (o ++ '.' :: p ++ '.' :: s ++ '.' :: d) =
      .error (.databaseErr (strL r"System does not exist")) := by
  simp only [DB.GetDevice, splitDots4 ho hp hs hd, h, ebind_ok, PyObj.truthy]
  rfl

theorem getDevice_none {db : DB} {o p s d : Str} {orow : OwnerRow} {prow : ProjRow}
    {srow : SysRow} (h : systemAt db o p s orow prow srow) (hd : '.' ∉ d)
    (habs : db.devices.filter (fun r => r.name == d && r.sysID == srow.id) = []) :
    db.GetDevice (o ++ '.' :: p ++ '.' :: s ++ '.' :: d) = .ok .pyNone := by
  simp only [DB.GetDevice, splitDots4 h.1.1.2.1 h.1.2.2.1 h.2.2.1 hd,
    getSystem_at h, ebind_ok, sysObj, PyObj.truthy, PyObj.IDof, habs]
  rfl

theorem getDevice_at {db : DB} {o p s d : Str} {orow : OwnerRow} {prow : ProjRow}
    {srow : SysRow} {drow : DevRow} {mrow : MfgRow}
    (h : deviceAt db o p s d orow prow srow drow mrow) :
    db.GetDevice (o ++ '.' :: p ++ '.' :: s ++ '.' :: d) =
      .ok (devObj drow (sysObj srow (projObj prow (ownerObj orow))) (mfgObj mrow)) := by
  obtain ⟨hsys, hn, hd, hsid, hmid, hf, hfid, hok, hmfg⟩ := h
  simp only [DB.GetDevice, splitDots4 hsys.1.1.2.1 hsys.1.2.2.1 hsys.2.2.1 hd,
    getSystem_at hsys, ebind_ok, sysObj, PyObj.truthy, PyObj.IDof, hf]
  rw [hsid, hmid]
  rw [show db.GetSystemByID srow.id = .ok (sysObj srow (projObj prow (ownerObj orow)))
    from getSystemByID_at hsys]
  simp only [ebind_ok]
  rw [show db.GetManufacturerByID mrow.id = .ok (mfgObj mrow) from getMfgByID_at hmfg]
  simp only [ebind_ok]
  rw [deviceMk_ok _ _ (by simp [sysObj, PyObj.isSystem]) hok.1
    (by simp [mfgObj, PyObj.truthy]) hok.2]
  simp [devObj, sysObj]

theorem getDeviceByID_at {db : DB} {o p s d : Str} {orow : OwnerRow} {prow : ProjRow}
    {srow : SysRow} {drow : DevRow} {mrow : MfgRow}
    (h : deviceAt db o p s d orow prow srow drow mrow) :
    db.GetDeviceByID drow.id =
      .ok (devObj drow (sysObj srow (projObj prow (ownerObj orow))) (mfgObj mrow)) := by
  obtain ⟨hsys, hn, hd, hsid, hmid, hf, hfid, hok, hmfg⟩ := h
  simp only [DB.GetDeviceByID, hfid]
  rw [hsid, hmid]
  rw [show db.GetSystemByID srow.id = .ok (sysObj srow (projObj prow (ownerObj orow)))
    from getSystemByID_at hsys]
  simp only [ebind_ok]
  rw [show db.GetManufacturerByID mrow.id = .ok (mfgObj mrow) from getMfgByID_at hmfg]
  simp only [ebind_ok]
  rw [deviceMk_ok _ _ (by simp [sysObj, PyObj.isSystem]) hok.1
    (by simp [mfgObj, PyObj.truthy]) hok.2]
  simp [devObj, sysObj]

theorem getSensor_err_prop {db : DB} {o p s d S : Str} {e : PyErr}
    (ho : '.' ∉ o) (hp : '.' ∉ p) (hs : '.' ∉ s) (hd : '.' ∉ d) (hS : '.' ∉ S)
    (h : db.GetDevice (o ++ '.' :: p ++ '.' :: s ++ '.' :: d) = .error e) :
    db.GetSensor (o ++ '.' :: p ++ '.' :: s ++ '.' :: d ++ '.' :: S) = .error e := by
  simp only [DB.GetSensor, splitDots5 ho hp hs hd hS, h, ebind_err]

theorem getSensor_err_device {db : DB} {o p s d S : Str}
    (ho : '.' ∉ o) (hp : '.' ∉ p) (hs : '.' ∉ s) (hd : '.' ∉ d) (hS : '.' ∉ S)
    (h : db.GetDevice (o ++ '.' :: p ++ '.' :: s ++ '.' :: d) = .ok .pyNone) :
    db.GetSensor (o ++ '.' :: p ++ '.' :: s ++ '.' :: d ++ '.' :: S) =
      .error (.databaseErr (strL r"Device not found")) := by
  simp only [DB.GetSensor, splitDots5 ho hp hs hd hS, h, ebind_ok, PyObj.truthy]
  rfl

theorem getSensor_none {db : DB} {o p s d S : Str} {orow : OwnerRow} {prow : ProjRow}
    {srow : SysRow} {drow : DevRow} {mrow : MfgRow}
    (h : deviceAt db o p s d orow prow srow drow mrow) (hS : '.' ∉ S)
    (habs : db.sensors.filter (fun r => r.name == S && r.devID == drow.id) = []) :
    db.GetSensor (o ++ '.' :: p ++ '.' :: s ++ '.' :: d ++ '.' :: S) = .ok .pyNone := by
  simp only [DB.GetSensor,
    splitDots5 h.1.1.1.2.1 h.1.1.2.2.1 h.1.2.2.1 h.2.2.1 hS,
    getDevice_at h, ebind_ok, devObj, PyObj.truthy, PyObj.IDof, habs]
  rfl

theorem getSensor_at {db : DB} {o p s d S : Str} {orow : OwnerRow} {prow : ProjRow}
    {srow : SysRow} {drow : DevRow} {mrow : MfgRow} {senrow : SenRow} {urow : UnitRow}
    (h : sensorAt db o p s d S orow prow srow drow mrow senrow urow) :
    db.GetSensor (o ++ '.' :: p ++ '.' :: s ++ '.' :: d ++ '.' :: S) =
      .ok (senObj senrow
        (devObj drow (sysObj srow (projObj prow (ownerObj orow))) (mfgObj mrow))
        (unitsObj urow)) := by
  obtain ⟨hdev, hn, hS, hdid, huid, hf, hfid, hok, hun⟩ := h
  simp only [DB.GetSensor,
    splitDots5 hdev.1.1.1.2.1 hdev.1.1.2.2.1 hdev.1.2.2.1 hdev.2.2.1 hS,
    getDevice_at hdev, ebind_ok, devObj, PyObj.truthy, PyObj.IDof, hf]
  rw [hdid, huid]
  rw [show db.GetDeviceByID drow.id =
    .ok (devObj drow (sysObj srow (projObj prow (ownerObj orow))) (mfgObj mrow))
    from getDeviceByID_at hdev]
  simp only [ebind_ok]
  rw [show db.GetUnitsByID urow.id = .ok (unitsObj urow) from getUnitsByID_at hun]
  simp only [ebind_ok]
  rw [sensorMk_ok _ _ (by simp [devObj, PyObj.isDevice])
    (by simp [unitsObj, PyObj.truthy]) hok]
  simp [senObj, devObj]
theorem createProject_ok {db : DB} {o p desc : Str} {orow : OwnerRow}
    (howner : ownerAt db o orow) (hp : '.' ∉ p)
    (habs : db.projects.filter (fun r => r.name == p && r.ownerID == orow.id) = [])
    (hfresh : db.projects.filter (fun r => r.id == db.nextID) = [])
    (hok : groupCheck p desc = .ok ()) :
    db.CreateNewProject (o ++ '.' :: p) desc =
      (DB.insProject db ⟨p, desc, db.nextID, db.now, orow.id⟩,
       .ok (.pyProject p desc (ownerObj orow) (some db.nextID) (some db.now))) := by
  simp only [DB.CreateNewProject, splitDots2 howner.2.1 hp,
    getProject_none howner hp habs, getOwner_at howner, PyObj.truthy,
    Bool.false_eq_true, if_false, ownerObj, PyObj.IDof, DB.insProject,
    List.filter_append, hfresh, List.nil_append, List.filter_cons,
    beq_self_eq_true, if_true, List.filter_nil]
  rw [projectMk_ok _ _ (by simp [PyObj.isOwner]) hok]

theorem createSystem_ok {db : DB} {o p s desc : Str} {orow : OwnerRow} {prow : ProjRow}
    (hproj : projectAt db o p orow prow) (hs : '.' ∉ s)
    (habs : db.systems.filter (fun r => r.name == s && r.projID == prow.id) = [])
    (hfresh : db.systems.filter (fun r => r.id == db.nextID) = [])
    (hok : groupCheck s desc = .ok ()) :
    db.CreateNewSystem (o ++ '.' :: p ++ '.' :: s) desc =
      (DB.insSystem db ⟨s, desc, db.nextID, db.now, prow.id⟩,
       .ok (.pySystem s desc (projObj prow (ownerObj orow)) (some db.nextID) (some db.now))) := by
  simp only [DB.CreateNewSystem, splitDots3 hproj.1.2.1 hproj.2.2.1 hs,
    getSystem_none hproj hs habs, getProject_at hproj, PyObj.truthy,
    Bool.false_eq_true, if_false, projObj, PyObj.IDof, DB.insSystem,
    List.filter_append, hfresh, List.nil_append, List.filter_cons,
    beq_self_eq_true, if_true, List.filter_nil]
  rw [systemMk_ok _ _ (by simp [PyObj.isProject]) hok]
theorem createOwner_ok {db : DB} {name desc : Str}
    (habs : db.owners.filter (fun r => r.name == name) = [])
    (hfresh : db.owners.filter (fun r => r.id == db.nextID) = [])
    (hok : groupCheck name desc = .ok ()) :
    db.CreateNewOwner name desc =
      (DB.insOwner db ⟨name, desc, db.nextID, db.now⟩,
       .ok (.pyOwner name desc (some db.nextID) (some db.now))) := by
  simp only [DB.CreateNewOwner, getOwner_none habs, PyObj.truthy, Bool.false_eq_true,
    if_false, DB.insOwner, List.filter_append, hfresh, List.nil_append,
    List.filter_cons, beq_self_eq_true, if_true, List.filter_nil]
  rw [ownerMk_ok _ _ hok]
theorem createDevice_ok {db : DB} {o p s d desc url : Str} {orow : OwnerRow}
    {prow : ProjRow} {srow : SysRow} {mrow : MfgRow}
    (hsys : systemAt db o p s orow prow srow) (hd : '.' ∉ d)
    (hmfg : mfgAt db mrow)
    (habs : db.devices.filter (fun r => r.name == d && r.sysID == srow.id) = [])
    (hfresh : db.devices.filter (fun r => r.id == db.nextID) = [])
    (hurl : urlCheck url (strL r"Devices require a valid docs URL") = .ok ())
    (hok : groupCheck d desc = .ok ()) :
    db.CreateNewDevice (o ++ '.' :: p ++ '.' :: s ++ '.' :: d) desc url (mfgObj mrow) =
      (DB.insDevice db ⟨d, desc, srow.id, url, mrow.id, db.nextID, db.now⟩,
       .ok (.pyDevice d desc (sysObj srow (projObj prow (ownerObj orow))) url
         (mfgObj mrow) (some db.nextID) (some db.now))) := by
  simp only [DB.CreateNewDevice, splitDots4 hsys.1.1.2.1 hsys.1.2.2.1 hsys.2.2.1 hd,
    getDevice_none hsys hd habs, getSystem_at hsys, PyObj.truthy,
    Bool.false_eq_true, if_false, sysObj, mfgObj, PyObj.IDof, DB.insDevice,
    List.filter_append, hfresh, List.nil_append, List.filter_cons,
    beq_self_eq_true, if_true, List.filter_nil]
  rw [deviceMk_ok _ _ (by simp [PyObj.isSystem]) hurl
    (by simp [PyObj.truthy]) hok]
  simp [projObj, ownerObj]

theorem createSensor_ok {db : DB} {o p s d S desc : Str} {orow : OwnerRow}
    {prow : ProjRow} {srow : SysRow} {drow : DevRow} {mrow : MfgRow} {urow : UnitRow}
    (hdev : deviceAt db o p s d orow prow srow drow mrow) (hS : '.' ∉ S)
    (habs : db.sensors.filter (fun r => r.name == S && r.devID == drow.id) = [])
    (hfresh : db.sensors.filter (fun r => r.id == db.nextID) = [])
    (hok : groupCheck S desc = .ok ()) :
    db.CreateNewSensor (o ++ '.' :: p ++ '.' :: s ++ '.' :: d ++ '.' :: S) desc
        (unitsObj urow) =
      (DB.insSensor db ⟨S, desc, drow.id, urow.id, db.nextID, db.now⟩,
       .ok (.pySensor S desc
         (devObj drow (sysObj srow (projObj prow (ownerObj orow))) (mfgObj mrow))
         (unitsObj urow) (some db.nextID) (some db.now))) := by
  simp only [DB.CreateNewSensor,
    splitDots5 hdev.1.1.1.2.1 hdev.1.1.2.2.1 hdev.1.2.2.1 hdev.2.2.1 hS,
    getSensor_none hdev hS habs, getDevice_at hdev, PyObj.truthy,
    Bool.false_eq_true, if_false, devObj, unitsObj, PyObj.IDof, DB.insSensor,
    List.filter_append, hfresh, List.nil_append, List.filter_cons,
    beq_self_eq_true, if_true, List.filter_nil]
  rw [sensorMk_ok _ _ (by simp [PyObj.isDevice]) (by simp [PyObj.truthy]) hok]
  simp [sysObj, projObj, ownerObj, mfgObj]
theorem ownerAt_insProject {db : DB} {o : Str} {row : OwnerRow} {r : ProjRow}
    (h : ownerAt db o row) : ownerAt (DB.insProject db r) o row := by
  simpa [ownerAt, DB.insProject] using h

theorem projectAt_insSystem {db : DB} {o p : Str} {orow : OwnerRow} {prow : ProjRow}
    {r : SysRow} (h : projectAt db o p orow prow) :
    projectAt (DB.insSystem db r) o p orow prow := by
  simpa [projectAt, ownerAt, DB.insSystem] using h

theorem systemAt_insDevice {db : DB} {o p s : Str} {orow : OwnerRow} {prow : ProjRow}
    {srow : SysRow} {r : DevRow} (h : systemAt db o p s orow prow srow) :
    systemAt (DB.insDevice db r) o p s orow prow srow := by
  simpa [systemAt, projectAt, ownerAt, DB.insDevice] using h

theorem mfgAt_insDevice {db : DB} {mrow : MfgRow} {r : DevRow} (h : mfgAt db mrow) :
    mfgAt (DB.insDevice db r) mrow := by
  simpa [mfgAt, DB.insDevice] using h

theorem deviceAt_insSensor {db : DB} {o p s d : Str} {orow : OwnerRow} {prow : ProjRow}
    {srow : SysRow} {drow : DevRow} {mrow : MfgRow} {r : SenRow}
    (h : deviceAt db o p s d orow prow srow drow mrow) :
    deviceAt (DB.insSensor db r) o p s d orow prow srow drow mrow := by
  simpa [deviceAt, systemAt, projectAt, ownerAt, mfgAt, DB.insSensor] using h

theorem unitsAt_insSensor {db : DB} {urow : UnitRow} {r : SenRow} (h : unitsAt db urow) :
    unitsAt (DB.insSensor db r) urow := by
  simpa [unitsAt, DB.insSensor] using h
/-- C1: for every valid dotted name `N` with `k` components whose ancestors
are all present in the store and whose terminal name is free under its
parent, creating the level-`k` entity named `N` and then looking it up by
name `N` returns an entity whose derived `Nomenclature()` equals `N` — for
every level of the hierarchy (Owner, Project, System, Device, Sensor). -/
theorem C1_create_get_nomenclature :
    (∀ (db : DB) (name desc : Str), '.' ∉ name →
      db.owners.filter (fun r => r.name == name) = [] →
      db.owners.filter (fun r => r.id == db.nextID) = [] →
      groupCheck name desc = .ok () →
      ∃ db1 ent, db.CreateNewOwner name desc = (db1, .ok ent) ∧
        ∃ ent2, db1.GetOwner name = .ok ent2 ∧ ent2.Nomenclature = name) ∧
    (∀ (db : DB) (o p desc : Str) (orow : OwnerRow),
      ownerAt db o orow → '.' ∉ p →
      db.projects.filter (fun r => r.name == p && r.ownerID == orow.id) = [] →
      db.projects.filter (fun r => r.id == db.nextID) = [] →
      groupCheck p desc = .ok () →
      ∃ db1 ent, db.CreateNewProject (o ++ '.' :: p) desc = (db1, .ok ent) ∧
        ∃ ent2, db1.GetProject (o ++ '.' :: p) = .ok ent2 ∧
          ent2.Nomenclature = o ++ '.' :: p) ∧
    (∀ (db : DB) (o p s desc : Str) (orow : OwnerRow) (prow : ProjRow),
      projectAt db o p orow prow → '.' ∉ s →
      db.systems.filter (fun r => r.name == s && r.projID == prow.id) = [] →
      db.systems.filter (fun r => r.id == db.nextID) = [] →
      groupCheck s desc = .ok () →
      ∃ db1 ent, db.CreateNewSystem (o ++ '.' :: p ++ '.' :: s) desc = (db1, .ok ent) ∧
        ∃ ent2, db1.GetSystem (o ++ '.' :: p ++ '.' :: s) = .ok ent2 ∧
          ent2.Nomenclature = o ++ '.' :: p ++ '.' :: s) ∧
    (∀ (db : DB) (o p s d desc url : Str) (orow : OwnerRow) (prow : ProjRow)
        (srow : SysRow) (mrow : MfgRow),
      systemAt db o p s orow prow srow → '.' ∉ d → mfgAt db mrow →
      db.devices.filter (fun r => r.name == d && r.sysID == srow.id) = [] →
      db.devices.filter (fun r => r.id == db.nextID) = [] →
      urlCheck url (strL r"Devices require a valid docs URL") = .ok () →
      groupCheck d desc = .ok () →
      ∃ db1 ent, db.CreateNewDevice (o ++ '.' :: p ++ '.' :: s ++ '.' :: d) desc url
          (mfgObj mrow) = (db1, .ok ent) ∧
        ∃ ent2, db1.GetDevice (o ++ '.' :: p ++ '.' :: s ++ '.' :: d) = .ok ent2 ∧
          ent2.Nomenclature = o ++ '.' :: p ++ '.' :: s ++ '.' :: d) ∧
    (∀ (db : DB) (o p s d S desc : Str) (orow : OwnerRow) (prow : ProjRow)
        (srow : SysRow) (drow : DevRow) (mrow : MfgRow) (urow : UnitRow),
      deviceAt db o p s d orow prow srow drow mrow → '.' ∉ S → unitsAt db urow →
      db.sensors.filter (fun r => r.name == S && r.devID == drow.id) = [] →
      db.sensors.filter (fun r => r.id == db.nextID) = [] →
      groupCheck S desc = .ok () →
      ∃ db1 ent, db.CreateNewSensor (o ++ '.' :: p ++ '.' :: s ++ '.' :: d ++ '.' :: S)
          desc (unitsObj urow) = (db1, .ok ent) ∧
        ∃ ent2, db1.GetSensor (o ++ '.' :: p ++ '.' :: s ++ '.' :: d ++ '.' :: S) =
          .ok ent2 ∧
          ent2.Nomenclature = o ++ '.' :: p ++ '.' :: s ++ '.' :: d ++ '.' :: S) := by
  refine ⟨?lvl1, ?lvl2, ?lvl3, ?lvl4, ?lvl5⟩
  case lvl1 =>
    intro db name desc hdot habs hfresh hok
    refine ⟨_, _, createOwner_ok habs hfresh hok, ?_⟩
    have hat : ownerAt (DB.insOwner db ⟨name, desc, db.nextID, db.now⟩) name
        ⟨name, desc, db.nextID, db.now⟩ := by
      refine ⟨rfl, hdot, ?_, ?_, hok⟩
      · simp [DB.insOwner, List.filter_append, habs]
      · simp [DB.insOwner, List.filter_append, hfresh]
    exact ⟨_, getOwner_at hat, rfl⟩
  case lvl2 =>
    intro db o p desc orow howner hp habs hfresh hok
    refine ⟨_, _, createProject_ok howner hp habs hfresh hok, ?_⟩
    have hat : projectAt (DB.insProject db ⟨p, desc, db.nextID, db.now, orow.id⟩)
        o p orow ⟨p, desc, db.nextID, db.now, orow.id⟩ := by
      refine ⟨ownerAt_insProject howner, rfl, hp, rfl, ?_, ?_, hok⟩
      · simp [DB.insProject, List.filter_append, habs]
      · simp [DB.insProject, List.filter_append, hfresh]
    refine ⟨_, getProject_at hat, ?_⟩
    simp [projObj, ownerObj, PyObj.Nomenclature, PyObj.truthy, howner.1]
  case lvl3 =>
    intro db o p s desc orow prow hproj hs habs hfresh hok
    refine ⟨_, _, createSystem_ok hproj hs habs hfresh hok, ?_⟩
    have hat : systemAt (DB.insSystem db ⟨s, desc, db.nextID, db.now, prow.id⟩)
        o p s orow prow ⟨s, desc, db.nextID, db.now, prow.id⟩ := by
      refine ⟨projectAt_insSystem hproj, rfl, hs, rfl, ?_, ?_, hok⟩
      · simp [DB.insSystem, List.filter_append, habs]
      · simp [DB.insSystem, List.filter_append, hfresh]
    refine ⟨_, getSystem_at hat, ?_⟩
    simp [sysObj, projObj, ownerObj, PyObj.Nomenclature, PyObj.truthy,
      hproj.1.1, hproj.2.1]
  case lvl4 =>
    intro db o p s d desc url orow prow srow mrow hsys hd hmfg habs hfresh hurl hok
    refine ⟨_, _, createDevice_ok hsys hd hmfg habs hfresh hurl hok, ?_⟩
    have hat : deviceAt
        (DB.insDevice db ⟨d, desc, srow.id, url, mrow.id, db.nextID, db.now⟩)
        o p s d orow prow srow ⟨d, desc, srow.id, url, mrow.id, db.nextID, db.now⟩
        mrow := by
      refine ⟨systemAt_insDevice hsys, rfl, hd, rfl, rfl, ?_, ?_, ⟨hurl, hok⟩,
        mfgAt_insDevice hmfg⟩
      · simp [DB.insDevice, List.filter_append, habs]
      · simp [DB.insDevice, List.filter_append, hfresh]
    refine ⟨_, getDevice_at hat, ?_⟩
    simp [devObj, sysObj, projObj, ownerObj, PyObj.Nomenclature, PyObj.truthy,
      hsys.1.1.1, hsys.1.2.1, hsys.2.1]
  case lvl5 =>
    intro db o p s d S desc orow prow srow drow mrow urow hdev hS hun habs hfresh hok
    refine ⟨_, _, createSensor_ok hdev hS habs hfresh hok, ?_⟩
    have hat : sensorAt
        (DB.insSensor db ⟨S, desc, drow.id, urow.id, db.nextID, db.now⟩)
        o p s d S orow prow srow drow mrow
        ⟨S, desc, drow.id, urow.id, db.nextID, db.now⟩ urow := by
      refine ⟨deviceAt_insSensor hdev, rfl, hS, rfl, rfl, ?_, ?_, hok,
        unitsAt_insSensor hun⟩
      · simp [DB.insSensor, List.filter_append, habs]
      · simp [DB.insSensor, List.filter_append, hfresh]
    refine ⟨_, getSensor_at hat, ?_⟩
    simp [senObj, devObj, sysObj, projObj, ownerObj, PyObj.Nomenclature,
      PyObj.truthy, hdev.1.1.1.1, hdev.1.1.2.1, hdev.1.2.1, hdev.2.1]
/-- Concrete store used to instantiate the theorems: one full
owner/project/system/device chain, one manufacturer, one units row, no
sensors yet. -/
def wOrow : OwnerRow := ⟨strL r"o", strL r"dsc", 1, 10⟩

def wProw : ProjRow := ⟨strL r"p", strL r"dsc", 2, 10, 1⟩

def wSrow : SysRow := ⟨strL r"s", strL r"dsc", 3, 10, 2⟩

def wMrow : MfgRow := ⟨strL r"m", strL r"dsc", strL r"http", 4, 10⟩

def wDrow : DevRow := ⟨strL r"d", strL r"dsc", 3, strL r"http", 4, 5, 10⟩

def wUrow : UnitRow := ⟨strL r"K", strL r"kelvin", strL r"temp", 6⟩

def wDB : DB := ⟨[wOrow], [wProw], [wSrow], [wMrow], [wDrow], [wUrow], [], [], 7, 20⟩

theorem C1_create_get_nomenclature_witness :
    ∃ db1 ent,
      wDB.CreateNewSensor
          (strL r"o" ++ '.' :: strL r"p" ++ '.' :: strL r"s" ++ '.' :: strL r"d" ++ '.' :: strL r"T")
          (strL r"dsc") (unitsObj wUrow) = (db1, .ok ent) ∧
      ∃ ent2,
        db1.GetSensor
            (strL r"o" ++ '.' :: strL r"p" ++ '.' :: strL r"s" ++ '.' :: strL r"d" ++ '.' :: strL r"T") =
          .ok ent2 ∧
        ent2.Nomenclature =
          strL r"o" ++ '.' :: strL r"p" ++ '.' :: strL r"s" ++ '.' :: strL r"d" ++ '.' :: strL r"T" :=
  C1_create_get_nomenclature.2.2.2.2 wDB (strL r"o") (strL r"p") (strL r"s")
    (strL r"d") (strL r"T") (strL r"dsc") wOrow wProw wSrow wDrow wMrow wUrow
    (by decide) (by decide) (by decide) (by decide) (by decide) (by decide)
/-- C2: for the name-based lookups, a broken ancestor chain raises a
data-access error (`DatabaseException`) identifying the missing level, while
a fully valid ancestor chain with a nonexistent leaf returns `None` rather
than an error — shown for `GetSystem` (ancestors: owner, project) and
`GetSensor` (ancestors: owner, project, system, device). -/
theorem C2_lookup_two_tier :
    (∀ (db : DB) (o p s : Str), '.' ∉ o → '.' ∉ p → '.' ∉ s →
      db.owners.filter (fun r => r.name == o) = [] →
      db.GetSystem (o ++ '.' :: p ++ '.' :: s) =
        .error (.databaseErr (strL r"Invalid owner name"))) ∧
    (∀ (db : DB) (o p s : Str) (orow : OwnerRow), ownerAt db o orow →
      '.' ∉ p → '.' ∉ s →
      db.projects.filter (fun r => r.name == p && r.ownerID == orow.id) = [] →
      db.GetSystem (o ++ '.' :: p ++ '.' :: s) =
        .error (.databaseErr (strL r"Invalid project name"))) ∧
    (∀ (db : DB) (o p s : Str) (orow : OwnerRow) (prow : ProjRow),
      projectAt db o p orow prow → '.' ∉ s →
      db.systems.filter (fun r => r.name == s && r.projID == prow.id) = [] →
      db.GetSystem (o ++ '.' :: p ++ '.' :: s) = .ok .pyNone) ∧
    (∀ (db : DB) (o p s d S : Str), '.' ∉ o → '.' ∉ p → '.' ∉ s → '.' ∉ d → '.' ∉ S →
      db.owners.filter (fun r => r.name == o) = [] →
      db.GetSensor (o ++ '.' :: p ++ '.' :: s ++ '.' :: d ++ '.' :: S) =
        .error (.databaseErr (strL r"Invalid owner name"))) ∧
    (∀ (db : DB) (o p s d S : Str) (orow : OwnerRow), ownerAt db o orow →
      '.' ∉ p → '.' ∉ s → '.' ∉ d → '.' ∉ S →
      db.projects.filter (fun r => r.name == p && r.ownerID == orow.id) = [] →
      db.GetSensor (o ++ '.' :: p ++ '.' :: s ++ '.' :: d ++ '.' :: S) =
        .error (.databaseErr (strL r"Invalid project name"))) ∧
    (∀ (db : DB) (o p s d S : Str) (orow : OwnerRow) (prow : ProjRow),
      projectAt db o p orow prow → '.' ∉ s → '.' ∉ d → '.' ∉ S →
      db.systems.filter (fun r => r.name == s && r.projID == prow.id) = [] →
      db.GetSensor (o ++ '.' :: p ++ '.' :: s ++ '.' :: d ++ '.' :: S) =
        .error (.databaseErr (strL r"System does not exist"))) ∧
    (∀ (db : DB) (o p s d S : Str) (orow : OwnerRow) (prow : ProjRow) (srow : SysRow),
      systemAt db o p s orow prow srow → '.' ∉ d → '.' ∉ S →
      db.devices.filter (fun r => r.name == d && r.sysID == srow.id) = [] →
      db.GetSensor (o ++ '.' :: p ++ '.' :: s ++ '.' :: d ++ '.' :: S) =
        .error (.databaseErr (strL r"Device not found"))) ∧
    (∀ (db : DB) (o p s d S : Str) (orow : OwnerRow) (prow : ProjRow) (srow : SysRow)
        (drow : DevRow) (mrow : MfgRow),
      deviceAt db o p s d orow prow srow drow mrow → '.' ∉ S →
      db.sensors.filter (fun r => r.name == S && r.devID == drow.id) = [] →
      db.GetSensor (o ++ '.' :: p ++ '.' :: s ++ '.' :: d ++ '.' :: S) = .ok .pyNone) := by
  refine ⟨?a, ?b, ?c, ?d, ?e, ?f, ?g, ?h⟩
  case a =>
    intro db o p s ho hp hs habs
    exact getSystem_err_prop ho hp hs (getProject_err_owner ho hp habs)
  case b =>
    intro db o p s orow how hp hs habs
    exact getSystem_err_project how.2.1 hp hs (getProject_none how hp habs)
  case c =>
    intro db o p s orow prow hpr hs habs
    exact getSystem_none hpr hs habs
  case d =>
    intro db o p s d S ho hp hs hd hS habs
    exact getSensor_err_prop ho hp hs hd hS
      (getDevice_err_prop ho hp hs hd
        (getSystem_err_prop ho hp hs (getProject_err_owner ho hp habs)))
  case e =>
    intro db o p s d S orow how hp hs hd hS habs
    exact getSensor_err_prop how.2.1 hp hs hd hS
      (getDevice_err_prop how.2.1 hp hs hd
        (getSystem_err_project how.2.1 hp hs (getProject_none how hp habs)))
  case f =>
    intro db o p s d S orow prow hpr hs hd hS habs
    exact getSensor_err_prop hpr.1.2.1 hpr.2.2.1 hs hd hS
      (getDevice_err_system hpr.1.2.1 hpr.2.2.1 hs hd (getSystem_none hpr hs habs))
  case g =>
    intro db o p s d S orow prow srow hsys hd hS habs
    exact getSensor_err_device hsys.1.1.2.1 hsys.1.2.2.1 hsys.2.2.1 hd hS
      (getDevice_none hsys hd habs)
  case h =>
    intro db o p s d S orow prow srow drow mrow hdev hS habs
    exact getSensor_none hdev hS habs

/-- Concrete instance of C2: on the witness store, looking up a sensor under
the fully present device chain returns `None` (leaf missing, no error). -/
theorem C2_lookup_two_tier_witness :
    wDB.GetSensor
        (strL r"o" ++ '.' :: strL r"p" ++ '.' :: strL r"s" ++ '.' :: strL r"d" ++ '.' :: strL r"T") =
      .ok .pyNone :=
  C2_lookup_two_tier.2.2.2.2.2.2.2 wDB (strL r"o") (strL r"p") (strL r"s")
    (strL r"d") (strL r"T") wOrow wProw wSrow wDrow wMrow
    (by decide) (by decide) (by decide)
theorem ownerMk_err {n d : Str} {e : PyErr} (i t : Option Nat)
    (h : groupCheck n d = .error e) : Owner.mk' n d i t = .error e := by
  simp only [Owner.mk', bind, Except.bind, h]

/-- An empty store with `nextID = 1`, `now = 5`. -/
def emptyDB : DB := ⟨[], [], [], [], [], [], [], [], 1, 5⟩

/-- C3 counterexample: creating an owner whose 13-character name violates the
model bound raises the model-validation error, but the store is NOT left
unchanged — the row was already inserted when the validation ran.  This
refutes "detected before any store mutation ... the store is left unchanged
(no row inserted)". -/
theorem C3_counterexample :
    (emptyDB.CreateNewOwner (strL r"abcdefghijklm") (strL r"dsc")).2 =
      .error (.modelErr (strL r"Name of group exceeds 12 char max")) ∧
    (emptyDB.CreateNewOwner (strL r"abcdefghijklm") (strL r"dsc")).1.owners =
      [⟨strL r"abcdefghijklm", strL r"dsc", 1, 5⟩] := by
  constructor
  · decide
  · decide

/-- C3 (amended): for `CreateNewOwner`, a model-validation failure in the
constructed entity still causes the create to raise that model error, but
the validation runs only after the insert, so the store is left with the new
row rather than unchanged (the whole row is inserted; nothing partial). -/
theorem C3_validation_after_insert (db : DB) (name desc : Str) (e : PyErr)
    (habs : db.owners.filter (fun r => r.name == name) = [])
    (hfresh : db.owners.filter (fun r => r.id == db.nextID) = [])
    (hbad : groupCheck name desc = .error e) :
    db.CreateNewOwner name desc =
      (DB.insOwner db ⟨name, desc, db.nextID, db.now⟩, .error e) := by
  simp only [DB.CreateNewOwner, getOwner_none habs, PyObj.truthy, Bool.false_eq_true,
    if_false, DB.insOwner, List.filter_append, hfresh, List.nil_append,
    List.filter_cons, beq_self_eq_true, if_true, List.filter_nil]
  rw [ownerMk_err _ _ hbad]

/-- Concrete instance of the amended C3: on the empty store the failed
create returns the model error together with the mutated store. -/
theorem C3_validation_after_insert_witness :
    emptyDB.CreateNewOwner (strL r"abcdefghijklm") (strL r"dsc") =
      (DB.insOwner emptyDB ⟨strL r"abcdefghijklm", strL r"dsc", 1, 5⟩,
       .error (.modelErr (strL r"Name of group exceeds 12 char max"))) :=
  C3_validation_after_insert emptyDB (strL r"abcdefghijklm") (strL r"dsc") _
    (by decide) (by decide) (by decide)
theorem buildRecords_ok {sensor : PyObj} (h : sensor.truthy = true)
    (rows : List RecRow) :
    buildRecords sensor rows =
      .ok (rows.map (fun r => ⟨r.rdata, r.rerror, sensor, some r.id, some r.dtg⟩)) := by
  induction rows with
  | nil => rfl
  | cons r rest ih =>
    simp only [buildRecords, Record.mk', h, Bool.not_true, Bool.false_eq_true,
      if_false, ebind_ok, ih, List.map_cons, epure_eq_ok]
    rfl

/-- C4: `GetRecords` fails with a data-access error when the sensor argument
is absent; otherwise it selects exactly this sensor's records with timestamp
in the inclusive range `[t0, t1]`, ordered ascending by timestamp, returning
`None` when no record qualifies and a `RecordSet` over the qualifying
records otherwise. -/
theorem C4_get_records :
    (∀ (db : DB) (sensor : PyObj) (t0 t1 : Nat), sensor.truthy = false →
      db.GetRecords sensor t0 t1 = .error (.databaseErr (strL r"Sensor Required"))) ∧
    (∀ (db : DB) (sensor : PyObj) (sid t0 t1 : Nat),
      sensor.truthy = true → sensor.IDof = some sid →
      db.recQuery sid t0 t1 = [] →
      db.GetRecords sensor t0 t1 = .ok none) ∧
    (∀ (db : DB) (sensor : PyObj) (sid t0 t1 : Nat),
      sensor.truthy = true → sensor.IDof = some sid →
      db.recQuery sid t0 t1 ≠ [] →
      ∃ rs, db.GetRecords sensor t0 t1 = .ok (some rs) ∧
        rs.times = (sortByDTG (db.recQuery sid t0 t1)).map (fun r => some r.dtg) ∧
        rs.rdata = (sortByDTG (db.recQuery sid t0 t1)).map (fun r => r.rdata) ∧
        rs.errs = (sortByDTG (db.recQuery sid t0 t1)).map (fun r => r.rerror) ∧
        rs.sensor = sensor ∧
        rs.N = (db.recQuery sid t0 t1).length ∧
        List.Sorted recLE (sortByDTG (db.recQuery sid t0 t1)) ∧
        List.Perm (sortByDTG (db.recQuery sid t0 t1)) (db.recQuery sid t0 t1) ∧
        ∀ r ∈ sortByDTG (db.recQuery sid t0 t1),
          r.senID = sid ∧ t0 ≤ r.dtg ∧ r.dtg ≤ t1) := by
  refine ⟨?noSensor, ?empty, ?full⟩
  case noSensor =>
    intro db sensor t0 t1 h
    simp [DB.GetRecords, h]
  case empty =>
    intro db sensor sid t0 t1 ht hid habs
    simp [DB.GetRecords, ht, hid, habs, sortByDTG, List.insertionSort]
  case full =>
    intro db sensor sid t0 t1 ht hid hne
    have hperm : List.Perm (sortByDTG (db.recQuery sid t0 t1)) (db.recQuery sid t0 t1) :=
      List.perm_insertionSort recLE _
    have hsne : sortByDTG (db.recQuery sid t0 t1) ≠ [] := by
      intro hcon
      have hlen := hperm.length_eq
      rw [hcon] at hlen
      exact hne (List.eq_nil_of_length_eq_zero hlen.symm)
    obtain ⟨r0, rest, heq⟩ := List.exists_cons_of_ne_nil hsne
    refine ⟨⟨(sortByDTG (db.recQuery sid t0 t1)).map (fun r => some r.dtg),
             (sortByDTG (db.recQuery sid t0 t1)).map (fun r => r.rdata),
             (sortByDTG (db.recQuery sid t0 t1)).map (fun r => r.rerror), sensor,
             ((sortByDTG (db.recQuery sid t0 t1)).map
               (fun r : RecRow => (some r.dtg : Option Nat))).length⟩,
      ?main, rfl, rfl, rfl, rfl, ?len, List.sorted_insertionSort recLE _, hperm, ?bounds⟩
    case main =>
      simp only [DB.GetRecords, ht, Bool.not_true, Bool.false_eq_true, if_false, hid]
      rw [heq]
      rw [buildRecords_ok ht]
      simp only [ebind_ok, List.map_cons, RecordSet.init, epure_eq_ok]
      simp [heq, List.map_map, Function.comp]
    case len =>
      simp only [List.length_map]
      exact hperm.length_eq
    case bounds =>
      intro r hr
      have hq : r ∈ db.recQuery sid t0 t1 := hperm.mem_iff.mp hr
      have := List.mem_filter.mp hq
      simp only [Bool.and_eq_true, beq_iff_eq, decide_eq_true_eq] at this
      exact ⟨this.2.1.1, this.2.1.2, this.2.2⟩
/-- A concrete sensor object over the witness store's chain, and a store
with two of its records inside the query window. -/
def wSensor : PyObj :=
  senObj ⟨strL r"T", strL r"dsc", 5, 6, 7, 20⟩
    (devObj wDrow (sysObj wSrow (projObj wProw (ownerObj wOrow))) (mfgObj wMrow))
    (unitsObj wUrow)

def wRecDB : DB :=
  ⟨[wOrow], [wProw], [wSrow], [wMrow], [wDrow], [wUrow],
   [⟨strL r"T", strL r"dsc", 5, 6, 7, 20⟩],
   [⟨3/2, 1/10, 30, 8, 7⟩, ⟨5/2, 1/5, 25, 9, 7⟩, ⟨5, 1, 99, 10, 7⟩], 11, 40⟩

/-- Concrete instance of C4: with two qualifying records (timestamps 30 and
25) the query returns a `RecordSet` whose rows are timestamp-ascending and
within the window. -/
theorem C4_get_records_witness :
    ∃ rs, wRecDB.GetRecords wSensor 20 40 = .ok (some rs) ∧
      rs.times = (sortByDTG (wRecDB.recQuery 7 20 40)).map (fun r => some r.dtg) ∧
      rs.rdata = (sortByDTG (wRecDB.recQuery 7 20 40)).map (fun r => r.rdata) ∧
      rs.errs = (sortByDTG (wRecDB.recQuery 7 20 40)).map (fun r => r.rerror) ∧
      rs.sensor = wSensor ∧
      rs.N = (wRecDB.recQuery 7 20 40).length ∧
      List.Sorted recLE (sortByDTG (wRecDB.recQuery 7 20 40)) ∧
      List.Perm (sortByDTG (wRecDB.recQuery 7 20 40)) (wRecDB.recQuery 7 20 40) ∧
      ∀ r ∈ sortByDTG (wRecDB.recQuery 7 20 40),
        r.senID = 7 ∧ 20 ≤ r.dtg ∧ r.dtg ≤ 40 :=
  C4_get_records.2.2 wRecDB wSensor 7 20 40 (by decide) (by decide) (by decide)
theorem RecordSet.init_shape {records : List Record} {rs : RecordSet}
    (h : RecordSet.init records = .ok rs) :
    0 < rs.N ∧ rs.N = rs.rdata.length ∧ rs.N = records.length := by
  cases records with
  | nil => exact absurd h (by simp [RecordSet.init])
  | cons r rest =>
    have : rs = ⟨(r :: rest).map (·.dtg), (r :: rest).map (·.rdata),
        (r :: rest).map (·.rerror), r.sensor, ((r :: rest).map (·.dtg)).length⟩ := by
      simpa [RecordSet.init] using h.symm
    subst this
    simp

/-- Per-record values of the three-element record set of the spec's
worked example (values 10, 20, 30). -/
def c5records : List Record :=
  [⟨10, 0, wSensor, some 1, some 1⟩, ⟨20, 0, wSensor, some 2, some 2⟩,
   ⟨30, 0, wSensor, some 3, some 3⟩]

/-- C5: for constructed record sets, `Mean` is the arithmetic mean (sum of
values over `N`) and `Variance` is the population variance (sum of squared
deviations from the mean over `N`, not `N−1`); in particular the record set
over values `[10, 20, 30]` has `Mean = 20` and `Variance = 200/3`. -/
theorem C5_mean_variance :
    (∀ (records : List Record) (rs : RecordSet), RecordSet.init records = .ok rs →
      rs.Mean = .ok (rs.rdata.sum / rs.N) ∧
      rs.Variance =
        .ok ((rs.rdata.map (fun x => (x - rs.rdata.sum / rs.N) ^ 2)).sum / rs.N)) ∧
    (∃ rs, RecordSet.init c5records = .ok rs ∧
      rs.Mean = .ok 20 ∧ rs.Variance = .ok (200 / 3)) := by
  constructor
  · intro records rs h
    have hpos := (RecordSet.init_shape h).1
    have hne : ¬ rs.N = 0 := by omega
    have hm : rs.Mean = .ok (rs.rdata.sum / rs.N) := by
      simp [RecordSet.Mean, hne]
    refine ⟨hm, ?_⟩
    simp [RecordSet.Variance, hm, hne, ebind_ok]
  · refine ⟨_, rfl, ?_, ?_⟩
    · simp [RecordSet.Mean, RecordSet.init, c5records]
      norm_num
    · have hm : (⟨[some 1, some 2, some 3], [10, 20, 30], [0, 0, 0], wSensor, 3⟩ :
          RecordSet).Mean = .ok 20 := by
        simp [RecordSet.Mean]
        norm_num
      simp [RecordSet.Variance, RecordSet.init, c5records, hm, ebind_ok]
      norm_num

/-- The record set of the worked example, as `RecordSet.init` builds it. -/
def c5rs : RecordSet :=
  ⟨[some 1, some 2, some 3], [10, 20, 30], [0, 0, 0], wSensor, 3⟩

/-- Concrete instance of C5's general clause at the worked example. -/
theorem C5_mean_variance_witness :
    c5rs.Mean = .ok (c5rs.rdata.sum / c5rs.N) ∧
    c5rs.Variance =
      .ok ((c5rs.rdata.map (fun x => (x - c5rs.rdata.sum / c5rs.N) ^ 2)).sum / c5rs.N) :=
  C5_mean_variance.1 c5records c5rs (by rfl)

/-- C6: for `N ≥ 2`, `StandardDeviation` returns
`sqrt(Variance * N / (N - 1))` — the sample standard deviation derived from
the population variance; for `N = 1` the division by `N - 1 = 0` raises
`ZeroDivisionError`, and no numeric value is returned. -/
theorem C6_standard_deviation :
    (∀ (rs : RecordSet) (v : ℚ), 2 ≤ rs.N → rs.Variance = .ok v →
      rs.StandardDeviation =
        .ok (Real.sqrt ((v * rs.N / ((rs.N - 1 : Nat) : ℚ) : ℚ) : ℝ))) ∧
    (∀ rs : RecordSet, rs.N = 1 →
      rs.StandardDeviation = .error .zeroDivisionErr) := by
  constructor
  · intro rs v h2 hv
    have hne : ¬ (rs.N - 1 = 0) := by omega
    have hrad : rs.StandardDeviationRad = .ok (v * rs.N / ((rs.N - 1 : Nat) : ℚ)) := by
      simp only [RecordSet.StandardDeviationRad, hv, ebind_ok]
      rw [if_neg hne]
      rfl
    simp only [RecordSet.StandardDeviation, hrad]
    rfl
  · intro rs h1
    have hm : rs.Mean = .ok (rs.rdata.sum / rs.N) := by
      simp [RecordSet.Mean, h1]
    have hv : rs.Variance =
        .ok ((rs.rdata.map (fun x => (x - rs.rdata.sum / rs.N) ^ 2)).sum / rs.N) := by
      simp [RecordSet.Variance, hm, h1, ebind_ok]
    have hrad : rs.StandardDeviationRad = .error .zeroDivisionErr := by
      simp only [RecordSet.StandardDeviationRad, hv, ebind_ok, h1]
      simp only [if_true]
      rfl
    simp only [RecordSet.StandardDeviation, hrad]
    rfl

/-- The single-record record set: its `StandardDeviation` call fails with the
division-by-zero error. -/
theorem C6_standard_deviation_witness :
    (⟨[some 1], [42], [0], wSensor, 1⟩ : RecordSet).StandardDeviation =
      .error .zeroDivisionErr :=
  C6_standard_deviation.2 ⟨[some 1], [42], [0], wSensor, 1⟩ rfl
theorem ethrow_bind {ε α β : Type} (e : ε) (f : α → Except ε β) :
    (throw e : Except ε α) >>= f = .error e := rfl

/-- C7: constructing a `Project`, `System` or `Sensor` with a parent argument
that is `None`/falsy or not an instance of the required parent class
(`Owner`, `Project`, `Device` respectively) raises a model-validation error,
whatever the other fields are. -/
theorem C7_parent_type_checks :
    (∀ (n d : Str) (v : PyObj) (i t : Option Nat), v.isOwner = false →
      ∃ m, Project.mk' n d v i t = .error (.modelErr m)) ∧
    (∀ (n d : Str) (v : PyObj) (i t : Option Nat), v.isProject = false →
      ∃ m, System.mk' n d v i t = .error (.modelErr m)) ∧
    (∀ (n d : Str) (v un : PyObj) (i t : Option Nat), v.isDevice = false →
      ∃ m, Sensor.mk' n d v un i t = .error (.modelErr m)) := by
  refine ⟨?proj, ?sys, ?sen⟩
  case proj =>
    intro n d v i t h
    cases hv : v.truthy
    · exact ⟨strL r"Projects require a valid owner", by simp [Project.mk', hv, ethrow_bind]⟩
    · exact ⟨strL r"Projects must belong to an owner", by simp [Project.mk', hv, h, ethrow_bind]⟩
  case sys =>
    intro n d v i t h
    cases hv : v.truthy
    · exact ⟨strL r"Systems require a valid project", by simp [System.mk', hv, ethrow_bind]⟩
    · exact ⟨strL r"Systems must belong to a project", by simp [System.mk', hv, h, ethrow_bind]⟩
  case sen =>
    intro n d v un i t h
    cases hv : v.truthy
    · exact ⟨strL r"Sensors require a valid device", by simp [Sensor.mk', hv, ethrow_bind]⟩
    · exact ⟨strL r"sensors must belong to a device", by simp [Sensor.mk', hv, h, ethrow_bind]⟩

/-- Concrete instance of C7: a `Project` given a `System` instance (wrong
type) as its owner is rejected with a model error. -/
theorem C7_parent_type_checks_witness :
    ∃ m, Project.mk' (strL r"p") (strL r"dsc")
        (sysObj wSrow (projObj wProw (ownerObj wOrow))) none none =
      .error (.modelErr m) :=
  C7_parent_type_checks.1 (strL r"p") (strL r"dsc")
    (sysObj wSrow (projObj wProw (ownerObj wOrow))) none none (by decide)
theorem urlCheck_err {u m : Str} {e : PyErr} (h : urlCheck u m = .error e) :
    ∃ msg, e = .modelErr msg := by
  unfold urlCheck at h
  split_ifs at h <;> simp_all <;> exact ⟨_, h.symm⟩

/-- C8 counterexample: `Device.__init__` checks only the truthiness of its
manufacturer argument and `Sensor.__init__` only the truthiness of its units
argument — no `isinstance` check exists — so passing the (truthy) integer
`1`, which is not a `Manufacturer` (resp. `Units`) instance, succeeds
instead of failing. -/
theorem C8_counterexample :
    Device.mk' (strL r"d") (strL r"dsc") (sysObj wSrow (projObj wProw (ownerObj wOrow)))
        (strL r"http") (.pyInt 1) none none =
      .ok (.pyDevice (strL r"d") (strL r"dsc")
        (sysObj wSrow (projObj wProw (ownerObj wOrow))) (strL r"http") (.pyInt 1)
        none none) ∧
    Sensor.mk' (strL r"T") (strL r"dsc")
        (devObj wDrow (sysObj wSrow (projObj wProw (ownerObj wOrow))) (mfgObj wMrow))
        (.pyInt 1) none none =
      .ok (.pySensor (strL r"T") (strL r"dsc")
        (devObj wDrow (sysObj wSrow (projObj wProw (ownerObj wOrow))) (mfgObj wMrow))
        (.pyInt 1) none none) := by
  constructor
  · decide
  · decide

/-- C8 (amended): `Device` construction fails with a model-validation error
whenever the manufacturer argument is absent (falsy), and `Sensor`
construction whenever the units argument is absent (falsy), regardless of
the other fields; no instance-type check is performed on those two
arguments. -/
theorem C8_mfg_units_required :
    (∀ (n d u : Str) (sys mfg : PyObj) (i t : Option Nat), mfg.truthy = false →
      ∃ m, Device.mk' n d sys u mfg i t = .error (.modelErr m)) ∧
    (∀ (n d : Str) (dev un : PyObj) (i t : Option Nat), un.truthy = false →
      ∃ m, Sensor.mk' n d dev un i t = .error (.modelErr m)) := by
  constructor
  · intro n d u sys mfg i t hm
    cases h1 : sys.truthy
    · exact ⟨strL r"Devices require a valid system",
        by simp [Device.mk', h1, ethrow_bind]⟩
    · cases h2 : sys.isSystem
      · exact ⟨strL r"Devices must belong to a system",
          by simp [Device.mk', h1, h2, ethrow_bind]⟩
      · cases hu : urlCheck u (strL r"Devices require a valid docs URL") with
        | error e =>
          obtain ⟨msg, hmsg⟩ := urlCheck_err hu
          exact ⟨msg, by simp [Device.mk', h1, h2, hu, hmsg, ethrow_bind, ebind_err]⟩
        | ok uu =>
          exact ⟨strL r"Devices require a vailid manufacturer",
            by simp [Device.mk', h1, h2, hu, hm, ethrow_bind, ebind_ok]⟩
  · intro n d dev un i t hm
    cases h1 : dev.truthy
    · exact ⟨strL r"Sensors require a valid device",
        by simp [Sensor.mk', h1, ethrow_bind]⟩
    · cases h2 : dev.isDevice
      · exact ⟨strL r"sensors must belong to a device",
          by simp [Sensor.mk', h1, h2, ethrow_bind]⟩
      · exact ⟨strL r"Sensors require valid units",
          by simp [Sensor.mk', h1, h2, hm, ethrow_bind]⟩

/-- Concrete instance of the amended C8: `Device.mk'` with `None` as the
manufacturer fails with a model error. -/
theorem C8_mfg_units_required_witness :
    ∃ m, Device.mk' (strL r"d") (strL r"dsc")
        (sysObj wSrow (projObj wProw (ownerObj wOrow))) (strL r"http") .pyNone
        none none =
      .error (.modelErr m) :=
  C8_mfg_units_required.1 (strL r"d") (strL r"dsc") (strL r"http")
    (sysObj wSrow (projObj wProw (ownerObj wOrow))) .pyNone none none (by decide)
theorem groupCheck_err_long {n d : Str} (h : 12 < n.length) :
    ∃ m, groupCheck n d = .error (.modelErr m) := by
  unfold groupCheck
  split_ifs <;> first
  | exact ⟨_, rfl⟩
  | omega

/-- C9: a `Manufacturer` name longer than 12 characters is rejected with a
model-validation error (the shared `Group` 12-character name rule applies,
even though the `Manufacturers` name column nominally allows 255). -/
theorem C9_manufacturer_name_bound (name desc url : Str) (i t : Option Nat)
    (h : 12 < name.length) :
    ∃ m, Manufacturer.mk' name desc url i t = .error (.modelErr m) := by
  cases hu : urlCheck url (strL r"Manufacturer require a valid URL") with
  | error e =>
    obtain ⟨msg, hmsg⟩ := urlCheck_err hu
    exact ⟨msg, by simp [Manufacturer.mk', hu, hmsg, ebind_err]⟩
  | ok uu =>
    obtain ⟨msg, hg⟩ := groupCheck_err_long (d := desc) h
    exact ⟨msg, by simp [Manufacturer.mk', hu, hg, ebind_ok, ebind_err]⟩

/-- Concrete instance of C9: a 13-character manufacturer name is rejected. -/
theorem C9_manufacturer_name_bound_witness :
    ∃ m, Manufacturer.mk' (strL r"abcdefghijklm") (strL r"dsc") (strL r"http")
        none none =
      .error (.modelErr m) :=
  C9_manufacturer_name_bound (strL r"abcdefghijklm") (strL r"dsc") (strL r"http")
    none none (by decide)

/-- C10: building a `RecordSet` from an empty record list fails (the
`records[0].sensor` read raises `IndexError`), so every constructed
`RecordSet` has `N ≥ 1` and its sensor is the first record's sensor. -/
theorem C10_recordset_nonempty :
    RecordSet.init [] = .error .indexErr ∧
    ∀ (records : List Record) (rs : RecordSet), RecordSet.init records = .ok rs →
      1 ≤ rs.N ∧ ∃ r rest, records = r :: rest ∧ rs.sensor = r.sensor := by
  constructor
  · rfl
  · intro records rs h
    cases records with
    | nil => exact absurd h (by simp [RecordSet.init])
    | cons r rest =>
      have hshape : rs = ⟨(r :: rest).map (·.dtg), (r :: rest).map (·.rdata),
          (r :: rest).map (·.rerror), r.sensor, ((r :: rest).map (·.dtg)).length⟩ := by
        simpa [RecordSet.init] using h.symm
      subst hshape
      exact ⟨by simp, r, rest, rfl, rfl⟩

/-- Concrete instance of C10 at the worked example's record list. -/
theorem C10_recordset_nonempty_witness :
    1 ≤ c5rs.N ∧ ∃ r rest, c5records = r :: rest ∧ c5rs.sensor = r.sensor :=
  C10_recordset_nonempty.2 c5records c5rs (by rfl)
